import Mathlib

/-
Shallow embedding of the cudnn-frontend graph-node layer covered by the spec:
the scaled-dot-product flash-attention forward and backward composite nodes
(src/unnamed/part_000, a header defining ScaledDotProductFlashAttentionNode and
ScaledDotProductFlashAttentionBackwardNode) and the layer-norm backward node
(src/include/cudnn_frontend/node/dln.h, DLNNode).

Modelling conventions:
- int64_t dimensions, strides and byte sizes are Lean Int.
- float / double scalar parameters are Lean Rat; float arithmetic that the code
  performs on them (1.0f / (1.0f - p), 1.0f - p) is modelled exactly over Rat.
- std::optional<T> is Option T; optional::value() on an empty optional throws
  std::bad_optional_access in C++, modelled as an Except.error.
- shared_ptr<Tensor_attributes> ports are Option Tensor_attributes (nullptr =
  none); descriptors are modelled by value, and in-place mutations the code
  performs on them (the K / V transpose, filling empty dims) are modelled by
  returning the updated attribute record from expansion.
- cudnnGetVersion() (runtime) and the CUDNN_VERSION macro (compile time) are
  separate Nat parameters, cudnn_version and cudnn_compiled_version.
- cudaGetDeviceProperties(...).major is the Nat parameter device_major;
  the CUDNN_FRONTEND_ATTN_DP_WORKSPACE_LIMIT environment variable is an
  Option Int holding the parsed value (an unparsable string makes the C++
  return an error before the decision is taken, which no claim covers).
-/

namespace cudnn_frontend

/-- DataType_t enumeration (only the enumerators the modelled nodes mention). -/
inductive DataType_t where
  | NOT_SET
  | FLOAT
  | HALF
  | BFLOAT16
  | BOOLEAN
  | INT32
deriving Repr, DecidableEq

/-- PointwiseMode_t enumeration (the modes the modelled nodes use). -/
inductive PointwiseMode_t where
  | MUL
  | ADD
  | SUB
  | GEN_INDEX
  | CMP_LT
  | CMP_GE
  | LOGICAL_AND
  | BINARY_SELECT
  | EXP
  | IDENTITY
deriving Repr, DecidableEq

/-- error_code_t: the codes the modelled validation paths produce. -/
inductive error_code_t where
  | OK
  | ATTRIBUTE_NOT_SET
  | GRAPH_NOT_SUPPORTED
deriving Repr, DecidableEq

/-- error_t: a typed error code with a human-readable message. -/
structure error_t where
  code : error_code_t
  msg : String
deriving Repr, DecidableEq

def ok_error : error_t := { code := error_code_t.OK, msg := "" }

/-- Tensor_attributes: one tensor descriptor. Unset shape / stride are empty
lists, unset data type is NOT_SET, exactly as the C++ treats default-constructed
descriptors. reordering_type_F16x16 records set_reordering_type(F16x16). -/
structure Tensor_attributes where
  dim : List Int := []
  stride : List Int := []
  data_type : DataType_t := DataType_t.NOT_SET
  is_virtual : Bool := false
  is_pass_by_value : Bool := false
  reordering_type_F16x16 : Bool := false
deriving Repr, DecidableEq

instance : Inhabited Tensor_attributes := ⟨{}⟩

/-- get_stride().back(); calling back() on an empty vector is undefined in C++,
modelled as 0 (which is never 1, so an unset stride never passes the check). -/
def stride_back (t : Tensor_attributes) : Int :=
  (t.stride.getLast?).getD 0

/-- The second-to-last stride entry, for the Stats check
( *(get_stride().end() - 2) ); undefined on fewer than two entries, modelled 0. -/
def stride_second_last (t : Tensor_attributes) : Int :=
  (t.stride.dropLast.getLast?).getD 0

/-- detail::Context: the ambient configuration the nodes consult. -/
structure Context where
  intermediate_data_type : DataType_t := DataType_t.NOT_SET
  io_data_type : DataType_t := DataType_t.NOT_SET
deriving Repr, DecidableEq

/-- Scaled_dot_product_flash_attention_attributes: the forward node's ports
(inputs Q, K, V, Attn_scale, Bias, SEQ_LEN_Q, SEQ_LEN_KV, Seed, Offset,
Dropout_mask; outputs O, Stats, RNG_DUMP) and scalar parameters. -/
structure Scaled_dot_product_flash_attention_attributes where
  Q : Option Tensor_attributes := none
  K : Option Tensor_attributes := none
  V : Option Tensor_attributes := none
  Attn_scale : Option Tensor_attributes := none
  Bias : Option Tensor_attributes := none
  SEQ_LEN_Q : Option Tensor_attributes := none
  SEQ_LEN_KV : Option Tensor_attributes := none
  Seed : Option Tensor_attributes := none
  Offset : Option Tensor_attributes := none
  Dropout_mask : Option Tensor_attributes := none
  O : Option Tensor_attributes := none
  Stats : Option Tensor_attributes := none
  RNG_DUMP : Option Tensor_attributes := none
  attn_scale_value : Option ℚ := none
  dropout_probability : Option ℚ := none
  is_inference : Option Bool := none
  alibi_mask : Bool := false
  padding_mask : Bool := false
  causal_mask : Bool := false
deriving Repr, DecidableEq

/-- Modelled from the spec: Attributes::validate_inputs (declared in
node_interface.h / graph_helpers.h, which are not under src/) is the generic
required-port presence check of the attributes base class; a missing required
input port yields ATTRIBUTE_NOT_SET (spec section 7). It does not inspect
strides. For the forward attention node the required inputs are Q, K and V. -/
def sdpa_fwd_validate_inputs (attrs : Scaled_dot_product_flash_attention_attributes) : error_t :=
  if attrs.Q.isNone ∨ attrs.K.isNone ∨ attrs.V.isNone then
    { code := error_code_t.ATTRIBUTE_NOT_SET, msg := "required input not set" }
  else ok_error

/-- hidden_dim = q_dim[3] (indexing out of range is UB in C++, modelled 0). -/
def sdpa_fwd_hidden_dim (attrs : Scaled_dot_product_flash_attention_attributes) : Int :=
  ((attrs.Q.getD {}).dim.getD 3 0)

/-- A sequence of RETURN_CUDNN_FRONTEND_ERROR_IF checks: the first whose
condition holds returns its error, otherwise the trailing default (the final
generic validate_inputs or validate_outputs call) decides. -/
def run_checks (default : error_t) : List (Bool × error_t) → error_t
  | [] => default
  | (c, e) :: rest => if c then e else run_checks default rest

/-- The checks of ScaledDotProductFlashAttentionNode::pre_validate_node, in
source order. -/
def sdpa_fwd_checks (context : Context)
    (attrs : Scaled_dot_product_flash_attention_attributes) : List (Bool × error_t) :=
  [ (attrs.Q.isNone,
     { code := error_code_t.ATTRIBUTE_NOT_SET, msg := "Tensor Q not set" }),
    (attrs.K.isNone,
     { code := error_code_t.ATTRIBUTE_NOT_SET, msg := "Tensor K not set" }),
    (attrs.V.isNone,
     { code := error_code_t.ATTRIBUTE_NOT_SET, msg := "Tensor V not set" }),
    (attrs.O.isNone,
     { code := error_code_t.ATTRIBUTE_NOT_SET, msg := "Tensor O not set" }),
    (decide (stride_back (attrs.Q.getD {}) ≠ 1),
     { code := error_code_t.GRAPH_NOT_SUPPORTED,
       msg := "The stride for the last dimension corresponding to the embedding size per head should be 1 for Q" }),
    (decide (stride_back (attrs.K.getD {}) ≠ 1),
     { code := error_code_t.GRAPH_NOT_SUPPORTED,
       msg := "The stride for the last dimension corresponding to the embedding size per head should be 1 for K" }),
    (decide (stride_back (attrs.V.getD {}) ≠ 1),
     { code := error_code_t.GRAPH_NOT_SUPPORTED,
       msg := "The stride for the last dimension corresponding to the embedding size per head should be 1 for V" }),
    (attrs.is_inference.isNone,
     { code := error_code_t.ATTRIBUTE_NOT_SET, msg := "is_infernece attribute not set" }),
    (attrs.dropout_probability.isSome && attrs.Dropout_mask.isSome,
     { code := error_code_t.ATTRIBUTE_NOT_SET,
       msg := "Using both, custom dropout mask and internal-mask generation using dropout probability, is ill-formed." }),
    (decide (attrs.dropout_probability = some 1),
     { code := error_code_t.ATTRIBUTE_NOT_SET,
       msg := "Dropout probability cannot be 1 as corresponding scale wont be well formed." }),
    (decide (context.intermediate_data_type = DataType_t.NOT_SET),
     { code := error_code_t.ATTRIBUTE_NOT_SET,
       msg := "Intermediate tensor data type needs to be set as internal tensors require it." }),
    (attrs.padding_mask && (attrs.SEQ_LEN_Q.isNone || attrs.SEQ_LEN_KV.isNone),
     { code := error_code_t.ATTRIBUTE_NOT_SET,
       msg := "Padding mask requires seq_len_q and seq_len_kv to be set." }),
    (!attrs.padding_mask && (attrs.SEQ_LEN_Q.isSome || attrs.SEQ_LEN_KV.isSome),
     { code := error_code_t.ATTRIBUTE_NOT_SET,
       msg := "seq_len_q and seq_len_kv needs to be set only if padding mask is enabled." }),
    (attrs.Attn_scale.isSome && attrs.attn_scale_value.isSome,
     { code := error_code_t.ATTRIBUTE_NOT_SET,
       msg := "attn_scale with tensor and value cannot be set at the same time." }),
    (decide (¬ (sdpa_fwd_hidden_dim attrs ≤ 128 ∧ sdpa_fwd_hidden_dim attrs % 8 = 0)),
     { code := error_code_t.GRAPH_NOT_SUPPORTED,
       msg := "Num hidden_dim shoud be less than 128 and hidden_dim should be multiple of 8" }),
    (attrs.Bias.any (fun bt => bt.data_type = DataType_t.BOOLEAN),
     { code := error_code_t.GRAPH_NOT_SUPPORTED, msg := "Attn mask data type cannot be boolean" }) ]

/-- ScaledDotProductFlashAttentionNode::pre_validate_node, check for check in
source order: required ports Q, K, V, O; unit innermost stride of Q, K, V;
is_inference set; dropout probability and Dropout_mask mutually exclusive;
dropout probability not 1; intermediate data type configured; padding mask and
sequence-length tensors consistent; Attn_scale tensor and literal mutually
exclusive; hidden_dim at most 128 and a multiple of 8; Bias not boolean; the
first violated check yields its error, otherwise the trailing generic
validate_inputs call decides. -/
def sdpa_fwd_pre_validate (context : Context)
    (attrs : Scaled_dot_product_flash_attention_attributes) : error_t :=
  run_checks (sdpa_fwd_validate_inputs attrs) (sdpa_fwd_checks context attrs)

/-- Modelled from the spec: Attributes::validate_outputs (not under src/) is the
generic output-port completeness check (spec section 4.1 post_validate confirms
every output is resolved); for the forward node the contract output is O. -/
def sdpa_fwd_validate_outputs (attrs : Scaled_dot_product_flash_attention_attributes) : error_t :=
  if attrs.O.isNone then
    { code := error_code_t.ATTRIBUTE_NOT_SET, msg := "required output not set" }
  else ok_error

/-- ScaledDotProductFlashAttentionNode::post_validate_node: unit innermost
stride of the output O, then the generic validate_outputs. -/
def sdpa_fwd_post_validate (attrs : Scaled_dot_product_flash_attention_attributes) : error_t :=
  if stride_back (attrs.O.getD {}) ≠ 1 then
    { code := error_code_t.GRAPH_NOT_SUPPORTED,
      msg := "The stride for the last dimension corresponding to the embedding size per head should be 1 for O" }
  else sdpa_fwd_validate_outputs attrs

/-- Scaled_dot_product_flash_attention_backward_attributes: the backward node's
ports (inputs Q, K, V, O, dO, Stats, Attn_scale, Bias, SEQ_LEN_Q, SEQ_LEN_KV,
Seed, Offset, Dropout_mask, Dropout_scale, Dropout_scale_inv; outputs dQ, dK,
dV, dBias, RNG_DUMP) and scalar parameters. -/
structure Scaled_dot_product_flash_attention_backward_attributes where
  Q : Option Tensor_attributes := none
  K : Option Tensor_attributes := none
  V : Option Tensor_attributes := none
  O : Option Tensor_attributes := none
  dO : Option Tensor_attributes := none
  Stats : Option Tensor_attributes := none
  Attn_scale : Option Tensor_attributes := none
  Bias : Option Tensor_attributes := none
  SEQ_LEN_Q : Option Tensor_attributes := none
  SEQ_LEN_KV : Option Tensor_attributes := none
  Seed : Option Tensor_attributes := none
  Offset : Option Tensor_attributes := none
  Dropout_mask : Option Tensor_attributes := none
  Dropout_scale : Option Tensor_attributes := none
  Dropout_scale_inv : Option Tensor_attributes := none
  dQ : Option Tensor_attributes := none
  dK : Option Tensor_attributes := none
  dV : Option Tensor_attributes := none
  dBias : Option Tensor_attributes := none
  RNG_DUMP : Option Tensor_attributes := none
  attn_scale_value : Option ℚ := none
  dropout_probability : Option ℚ := none
  alibi_mask : Bool := false
  padding_mask : Bool := false
  causal_mask : Bool := false
deriving Repr, DecidableEq

/-- Modelled from the spec: generic required-port presence check for the
backward node (validate_inputs is not under src/; required inputs per the node
are Q, K, V, O, dO, Stats, all of whose presence the node checks itself). -/
def sdpa_bwd_validate_inputs (attrs : Scaled_dot_product_flash_attention_backward_attributes) : error_t :=
  if attrs.Q.isNone ∨ attrs.K.isNone ∨ attrs.V.isNone ∨ attrs.O.isNone ∨
     attrs.dO.isNone ∨ attrs.Stats.isNone then
    { code := error_code_t.ATTRIBUTE_NOT_SET, msg := "required input not set" }
  else ok_error

def sdpa_bwd_hidden_dim (attrs : Scaled_dot_product_flash_attention_backward_attributes) : Int :=
  ((attrs.Q.getD {}).dim.getD 3 0)

/-- The combined last-dimension-stride condition of the backward node
(last_dim_is_one over q, k, v, o, the last two stride entries of stats,
dQ, dK, dV and dO). -/
def sdpa_bwd_last_dim_is_one (attrs : Scaled_dot_product_flash_attention_backward_attributes) : Prop :=
  stride_back (attrs.Q.getD {}) = 1 ∧
  stride_back (attrs.K.getD {}) = 1 ∧
  stride_back (attrs.V.getD {}) = 1 ∧
  stride_back (attrs.O.getD {}) = 1 ∧
  stride_back (attrs.Stats.getD {}) = 1 ∧
  stride_second_last (attrs.Stats.getD {}) = 1 ∧
  stride_back (attrs.dQ.getD {}) = 1 ∧
  stride_back (attrs.dK.getD {}) = 1 ∧
  stride_back (attrs.dV.getD {}) = 1 ∧
  stride_back (attrs.dO.getD {}) = 1

instance (attrs : Scaled_dot_product_flash_attention_backward_attributes) :
    Decidable (sdpa_bwd_last_dim_is_one attrs) := by
  unfold sdpa_bwd_last_dim_is_one; infer_instance

/-- The checks of ScaledDotProductFlashAttentionBackwardNode::pre_validate_node,
in source order. -/
def sdpa_bwd_checks (context : Context)
    (attrs : Scaled_dot_product_flash_attention_backward_attributes) : List (Bool × error_t) :=
  [ (attrs.Q.isNone,
     { code := error_code_t.ATTRIBUTE_NOT_SET, msg := "Tensor input q not set" }),
    (attrs.K.isNone,
     { code := error_code_t.ATTRIBUTE_NOT_SET, msg := "Tensor input k not set" }),
    (attrs.V.isNone,
     { code := error_code_t.ATTRIBUTE_NOT_SET, msg := "Tensor input v not set" }),
    (attrs.O.isNone,
     { code := error_code_t.ATTRIBUTE_NOT_SET, msg := "Tensor input o not set" }),
    (attrs.dO.isNone,
     { code := error_code_t.ATTRIBUTE_NOT_SET, msg := "Tensor input dO not set" }),
    (attrs.Stats.isNone,
     { code := error_code_t.ATTRIBUTE_NOT_SET, msg := "Tensor input stats not set" }),
    (attrs.dQ.isNone,
     { code := error_code_t.ATTRIBUTE_NOT_SET, msg := "Tensor output dQ not set" }),
    (attrs.dK.isNone,
     { code := error_code_t.ATTRIBUTE_NOT_SET, msg := "Tensor output dK not set" }),
    (attrs.dV.isNone,
     { code := error_code_t.ATTRIBUTE_NOT_SET, msg := "Tensor output dV not set" }),
    (decide (¬ sdpa_bwd_last_dim_is_one attrs),
     { code := error_code_t.GRAPH_NOT_SUPPORTED,
       msg := "The stride for the last dimension corresponding to the hidden size per head should be 1" }),
    (attrs.dropout_probability.isSome && attrs.Dropout_mask.isSome,
     { code := error_code_t.ATTRIBUTE_NOT_SET,
       msg := "Using both, custom dropout mask and internal-mask generation using dropout probability, is ill-formed." }),
    (decide (attrs.dropout_probability = some 1),
     { code := error_code_t.ATTRIBUTE_NOT_SET,
       msg := "Dropout probability cannot be 1 as corresponding scale wont be well formed." }),
    (attrs.padding_mask && (attrs.SEQ_LEN_Q.isNone || attrs.SEQ_LEN_KV.isNone),
     { code := error_code_t.ATTRIBUTE_NOT_SET,
       msg := "Padding mask requires seq_len_q and seq_len_kv to be set." }),
    (!attrs.padding_mask && (attrs.SEQ_LEN_Q.isSome || attrs.SEQ_LEN_KV.isSome),
     { code := error_code_t.ATTRIBUTE_NOT_SET,
       msg := "seq_len_q and seq_len_kv needs to be set only if padding mask is enabled." }),
    (attrs.Attn_scale.isSome && attrs.attn_scale_value.isSome,
     { code := error_code_t.ATTRIBUTE_NOT_SET,
       msg := "attn_scale with tensor and value cannot be set at the same time." }),
    (decide (context.intermediate_data_type = DataType_t.NOT_SET),
     { code := error_code_t.ATTRIBUTE_NOT_SET,
       msg := "Intermediate tensor data type needs to be set as internal tensors require it." }),
    (decide (¬ (sdpa_bwd_hidden_dim attrs ≤ 128 ∧ sdpa_bwd_hidden_dim attrs % 8 = 0)),
     { code := error_code_t.GRAPH_NOT_SUPPORTED,
       msg := "Num hidden_dim shoud be less than 128 and hidden_dim should be multiple of 8" }),
    (attrs.Bias.any (fun bt => bt.data_type = DataType_t.BOOLEAN),
     { code := error_code_t.GRAPH_NOT_SUPPORTED, msg := "Attn mask data type cannot be boolean" }) ]

/-- ScaledDotProductFlashAttentionBackwardNode::pre_validate_node, check for
check in source order: required inputs Q, K, V, O, dO, Stats and outputs dQ,
dK, dV; the combined unit-stride condition; dropout probability and
Dropout_mask mutually exclusive; dropout probability not 1; padding mask and
sequence-length tensors consistent; Attn_scale tensor and literal mutually
exclusive; intermediate data type configured; hidden_dim constraint; Bias not
boolean; the first violated check yields its error, otherwise the trailing
generic validate_inputs call decides. -/
def sdpa_bwd_pre_validate (context : Context)
    (attrs : Scaled_dot_product_flash_attention_backward_attributes) : error_t :=
  run_checks (sdpa_bwd_validate_inputs attrs) (sdpa_bwd_checks context attrs)

/-- A primitive operation appended during composite expansion. Tensor fields
hold descriptor values; because descriptors are shared pointers in the C++, an
op records the value the shared descriptor ends up with (creation-time fields
plus the set_dim / set_stride / set_data_type calls the code performs on it). -/
inductive PrimOp where
  | matmul (name : String) (a b : Option Tensor_attributes)
      (m_override n_override k_override : Option Tensor_attributes)
      (out : Tensor_attributes)
  | pointwise (name : String) (mode : PointwiseMode_t) (axis : Option Int)
      (compute_data_type : DataType_t) (args : List (Option Tensor_attributes))
      (out : Tensor_attributes)
  | softmax (name : String) (has_stats has_M_Zinv : Bool) (input : Tensor_attributes)
      (out : Tensor_attributes) (stats : Option Tensor_attributes)
  | rng (name : String) (bernoulli_probability : ℚ)
      (seed offset : Option Tensor_attributes) (out : Tensor_attributes)
  | reduction (name : String) (input : Option Tensor_attributes) (out : Tensor_attributes)
  | reshape (name : String) (input : Option Tensor_attributes) (out : Tensor_attributes)
deriving Repr, DecidableEq

/-- The kind of a primitive operation: constructor, node name and, for
pointwise ops, the mode. -/
inductive OpTag where
  | matmul (name : String)
  | pointwise (name : String) (mode : PointwiseMode_t)
  | softmax (name : String)
  | rng (name : String)
  | reduction (name : String)
  | reshape (name : String)
deriving Repr, DecidableEq

def PrimOp.tag : PrimOp → OpTag
  | .matmul name _ _ _ _ _ _ => OpTag.matmul name
  | .pointwise name mode _ _ _ _ => OpTag.pointwise name mode
  | .softmax name _ _ _ _ _ => OpTag.softmax name
  | .rng name _ _ _ _ => OpTag.rng name
  | .reduction name _ _ => OpTag.reduction name
  | .reshape name _ _ => OpTag.reshape name

/-- Projection of a random-mask op to (bernoulli probability, seed, offset). -/
def PrimOp.rng_summary : PrimOp → Option (ℚ × Option Tensor_attributes × Option Tensor_attributes)
  | .rng _ p seed offset _ => some (p, seed, offset)
  | _ => none

def PrimOp.is_rng : PrimOp → Bool
  | .rng _ _ _ _ _ => true
  | _ => false

/-- Modelled from the spec: the op-building helpers (INode::matmul, pointwise,
softmax, rng, ... in node_interface.h, not under src/) create the functional
output as a fresh virtual intermediate descriptor with everything else unset
(spec section 3: a virtual tensor exists only to connect two primitives). -/
def virtual_output : Tensor_attributes := { is_virtual := true }

/-- Modelled from the spec: Attributes::fill_from_context (not under src/)
fills each bound port descriptor's unset data type from the context defaults
(spec section 6: default I/O data type); shapes and strides are untouched. -/
def tensor_fill_data_type (dt : DataType_t) (t : Tensor_attributes) : Tensor_attributes :=
  if t.data_type = DataType_t.NOT_SET then { t with data_type := dt } else t

def sdpa_fwd_fill_from_context (context : Context)
    (attrs : Scaled_dot_product_flash_attention_attributes) :
    Scaled_dot_product_flash_attention_attributes :=
  let f := tensor_fill_data_type context.io_data_type
  { attrs with
    Q := attrs.Q.map f, K := attrs.K.map f, V := attrs.V.map f,
    Attn_scale := attrs.Attn_scale.map f, Bias := attrs.Bias.map f,
    SEQ_LEN_Q := attrs.SEQ_LEN_Q.map f, SEQ_LEN_KV := attrs.SEQ_LEN_KV.map f,
    Seed := attrs.Seed.map f, Offset := attrs.Offset.map f,
    Dropout_mask := attrs.Dropout_mask.map f,
    O := attrs.O.map f, Stats := attrs.Stats.map f, RNG_DUMP := attrs.RNG_DUMP.map f }

/-- std::swap(temp_vec[2], temp_vec[3]) on a dim or stride vector; the nodes
only ever apply it to the canonical rank-4 vectors (on shorter vectors the C++
indexing would be out of range; modelled as the identity there). -/
def swap_2_3 (l : List Int) : List Int :=
  match l with
  | [a, b, c, d] => [a, b, d, c]
  | l => l

/-- The in-place K -> KT (and backward V -> VT) mapping, lines 236-244. -/
def transpose_2_3 (t : Tensor_attributes) : Tensor_attributes :=
  { t with dim := swap_2_3 t.dim, stride := swap_2_3 t.stride }

/-- The forward alibi chain (lines 282-320): gen_row_index, gen_col_index,
sub = col - row, multiply by the per-head slope vector, add into the running
score. Returns (ops, new last_output, the alibi_slopes helper tensor). -/
def fwd_alibi_seg (h : Int) (last : Tensor_attributes) :
    List PrimOp × Tensor_attributes × Tensor_attributes :=
  let row_index_output : Tensor_attributes := { virtual_output with data_type := DataType_t.INT32 }
  let col_index_output : Tensor_attributes := { virtual_output with data_type := DataType_t.INT32 }
  let sub_output : Tensor_attributes := { virtual_output with data_type := DataType_t.INT32 }
  let alibi_slopes : Tensor_attributes :=
    { dim := [1, h, 1, 1], stride := [h, 1, 1, 1], data_type := DataType_t.FLOAT }
  let alibi_mask_t : Tensor_attributes := virtual_output
  let add_output : Tensor_attributes := virtual_output
  ([ PrimOp.pointwise "gen_row_index" PointwiseMode_t.GEN_INDEX (some 2) DataType_t.INT32 [some last] row_index_output,
     PrimOp.pointwise "gen_col_index" PointwiseMode_t.GEN_INDEX (some 3) DataType_t.INT32 [some last] col_index_output,
     PrimOp.pointwise "sub" PointwiseMode_t.SUB none DataType_t.INT32 [some col_index_output, some row_index_output] sub_output,
     PrimOp.pointwise "mul" PointwiseMode_t.MUL none DataType_t.NOT_SET [some sub_output, some alibi_slopes] alibi_mask_t,
     PrimOp.pointwise "add" PointwiseMode_t.ADD none DataType_t.NOT_SET [some last, some alibi_mask_t] add_output ],
   add_output, alibi_slopes)

/-- The forward padding-mask chain (lines 322-376): row/col indices, strict
less-than against the sequence-length tensors, logical AND, binary select
against the negative-infinity constant. Returns (ops, new last_output, the
negative_inf_padding helper tensor). -/
def fwd_padding_seg (seq_len_q seq_len_kv : Option Tensor_attributes) (last : Tensor_attributes) :
    List PrimOp × Tensor_attributes × Tensor_attributes :=
  let row_index_output : Tensor_attributes := { virtual_output with data_type := DataType_t.INT32 }
  let col_index_output : Tensor_attributes := { virtual_output with data_type := DataType_t.INT32 }
  let row_less_seq_q_output : Tensor_attributes := { virtual_output with data_type := DataType_t.INT32 }
  let col_less_seq_kv_output : Tensor_attributes := { virtual_output with data_type := DataType_t.INT32 }
  let logical_and_output : Tensor_attributes := { virtual_output with data_type := DataType_t.BOOLEAN }
  let negative_inf_padding : Tensor_attributes :=
    { dim := [1, 1, 1, 1], stride := [1, 1, 1, 1], is_pass_by_value := true,
      data_type := DataType_t.FLOAT }
  let padding_mask_output : Tensor_attributes := virtual_output
  ([ PrimOp.pointwise "gen_row_index" PointwiseMode_t.GEN_INDEX (some 2) DataType_t.INT32 [some last] row_index_output,
     PrimOp.pointwise "gen_col_index" PointwiseMode_t.GEN_INDEX (some 3) DataType_t.INT32 [some last] col_index_output,
     PrimOp.pointwise "row_less_seq_q" PointwiseMode_t.CMP_LT none DataType_t.INT32 [some row_index_output, seq_len_q] row_less_seq_q_output,
     PrimOp.pointwise "col_less_seq_kv" PointwiseMode_t.CMP_LT none DataType_t.INT32 [some col_index_output, seq_len_kv] col_less_seq_kv_output,
     PrimOp.pointwise "logical_and" PointwiseMode_t.LOGICAL_AND none DataType_t.BOOLEAN [some row_less_seq_q_output, some col_less_seq_kv_output] logical_and_output,
     PrimOp.pointwise "binary_select" PointwiseMode_t.BINARY_SELECT none DataType_t.NOT_SET [some last, some negative_inf_padding, some logical_and_output] padding_mask_output ],
   padding_mask_output, negative_inf_padding)

/-- The forward causal-mask chain (lines 378-408): row/col indices (no compute
data type here, unlike alibi and padding), row >= col compare, binary select
against the negative-infinity constant. Returns (ops, new last_output, the
negative_inf_causal helper tensor). -/
def fwd_causal_seg (last : Tensor_attributes) :
    List PrimOp × Tensor_attributes × Tensor_attributes :=
  let row_index_output : Tensor_attributes := virtual_output
  let col_index_output : Tensor_attributes := virtual_output
  let row_greater_than_col_output : Tensor_attributes := { virtual_output with data_type := DataType_t.BOOLEAN }
  let negative_inf_causal : Tensor_attributes :=
    { dim := [1, 1, 1, 1], stride := [1, 1, 1, 1], is_pass_by_value := true,
      data_type := DataType_t.FLOAT }
  let causal_mask_output : Tensor_attributes := virtual_output
  ([ PrimOp.pointwise "gen_row_index" PointwiseMode_t.GEN_INDEX (some 2) DataType_t.NOT_SET [some last] row_index_output,
     PrimOp.pointwise "gen_col_index" PointwiseMode_t.GEN_INDEX (some 3) DataType_t.NOT_SET [some last] col_index_output,
     PrimOp.pointwise "row_greater_than_col" PointwiseMode_t.CMP_GE none DataType_t.BOOLEAN [some row_index_output, some col_index_output] row_greater_than_col_output,
     PrimOp.pointwise "binary_select" PointwiseMode_t.BINARY_SELECT none DataType_t.NOT_SET [some last, some negative_inf_causal, some row_greater_than_col_output] causal_mask_output ],
   causal_mask_output, negative_inf_causal)

/-- Lines 427-437: whether the dropout sub-graph is built. A set probability
enables it, except that probability exactly 0 is elided on runtime versions
above 8902; otherwise a bound user Dropout_mask enables it. -/
def sdpa_fwd_dropout_present (cudnn_version : Nat)
    (attrs : Scaled_dot_product_flash_attention_attributes) : Bool :=
  match attrs.dropout_probability with
  | some p => !(decide (cudnn_version > 8902) && decide (p = 0))
  | none => attrs.Dropout_mask.isSome

/-- The forward dropout chain (lines 439-481): the Bernoulli random-mask op
(both branches read dropout_probability.value(), which throws when the
probability was never set, i.e. when dropout is present only via a user
Dropout_mask), the mask multiply, and the scale multiply. Returns
(ops, new last_output, rng_output, dropout_scale helper tensor). -/
def fwd_dropout_seg (cudnn_version cudnn_compiled_version : Nat)
    (attrs : Scaled_dot_product_flash_attention_attributes)
    (q_data_type : DataType_t) (b h s_q s_kv : Int) (last : Tensor_attributes) :
    Except String (List PrimOp × Tensor_attributes × Option Tensor_attributes × Option Tensor_attributes) :=
  if sdpa_fwd_dropout_present cudnn_version attrs then
    match attrs.dropout_probability with
    | none => Except.error "bad_optional_access: dropout_probability.value() read with no value set"
    | some p =>
      let rng_output : Tensor_attributes :=
        match attrs.RNG_DUMP with
        | some t => t
        | none =>
          { virtual_output with dim := [b, h, s_q, s_kv],
                                stride := [h * s_q * s_kv, s_q * s_kv, s_kv, 1] }
      let dropout_mask_output : Tensor_attributes := virtual_output
      let dropout_scale : Tensor_attributes :=
        { dim := [1, 1, 1, 1], stride := [1, 1, 1, 1], is_pass_by_value := true,
          data_type := if cudnn_compiled_version < 8903 then q_data_type else DataType_t.FLOAT }
      let dropout_scale_output : Tensor_attributes := virtual_output
      Except.ok
        ([ PrimOp.rng "rng" (1 - p) attrs.Seed attrs.Offset rng_output,
           PrimOp.pointwise "dropout_mask_mul" PointwiseMode_t.MUL none DataType_t.NOT_SET [some last, some rng_output] dropout_mask_output,
           PrimOp.pointwise "dropout_scale" PointwiseMode_t.MUL none DataType_t.NOT_SET [some dropout_mask_output, some dropout_scale] dropout_scale_output ],
         dropout_scale_output, some rng_output, some dropout_scale)
  else Except.ok ([], last, none, none)

/-- The optional attention-scale multiply (lines 258-273), keyed on the
Attn_scale input port (which expansion has just replaced by a fresh
pass-by-value tensor when the literal attn_scale_value is set). -/
def fwd_scale_step (attn_scale : Option Tensor_attributes) (last : Tensor_attributes) :
    List PrimOp × Tensor_attributes :=
  match attn_scale with
  | some t =>
    ([PrimOp.pointwise "attn_scale" PointwiseMode_t.MUL none DataType_t.NOT_SET
        [some last, some t] virtual_output],
     virtual_output)
  | none => ([], last)

/-- The optional bias add (lines 276-280). -/
def fwd_bias_step (bias : Option Tensor_attributes) (last : Tensor_attributes) :
    List PrimOp × Tensor_attributes :=
  match bias with
  | some bt =>
    ([PrimOp.pointwise "bias" PointwiseMode_t.ADD none DataType_t.NOT_SET
        [some last, some bt] virtual_output],
     virtual_output)
  | none => ([], last)

/-- The conditional alibi chain: (ops, new last, the alibi_slopes member). -/
def fwd_alibi_step (flag : Bool) (h : Int) (last : Tensor_attributes) :
    List PrimOp × Tensor_attributes × Option Tensor_attributes :=
  if flag then
    ((fwd_alibi_seg h last).1, (fwd_alibi_seg h last).2.1, some (fwd_alibi_seg h last).2.2)
  else ([], last, none)

/-- The conditional padding-mask chain: (ops, new last, negative_inf_padding). -/
def fwd_padding_step (flag : Bool) (seq_len_q seq_len_kv : Option Tensor_attributes)
    (last : Tensor_attributes) :
    List PrimOp × Tensor_attributes × Option Tensor_attributes :=
  if flag then
    ((fwd_padding_seg seq_len_q seq_len_kv last).1,
     (fwd_padding_seg seq_len_q seq_len_kv last).2.1,
     some (fwd_padding_seg seq_len_q seq_len_kv last).2.2)
  else ([], last, none)

/-- The conditional causal-mask chain: (ops, new last, negative_inf_causal). -/
def fwd_causal_step (flag : Bool) (last : Tensor_attributes) :
    List PrimOp × Tensor_attributes × Option Tensor_attributes :=
  if flag then
    ((fwd_causal_seg last).1, (fwd_causal_seg last).2.1, some (fwd_causal_seg last).2.2)
  else ([], last, none)

/-- The result of forward expansion: the updated attribute record (the code
mutates K in place, rebinds Attn_scale when the literal is set, and fills O)
plus the appended primitive ops and the helper member tensors the node keeps
for the workspace / pass-by-value queries. -/
structure SdpaFwdExpandResult where
  attrs : Scaled_dot_product_flash_attention_attributes
  ops : List PrimOp
  rng_output : Option Tensor_attributes := none
  dropout_scale : Option Tensor_attributes := none
  negative_inf_causal : Option Tensor_attributes := none
  negative_inf_padding : Option Tensor_attributes := none
  alibi_slopes : Option Tensor_attributes := none
deriving Repr, DecidableEq

/-- The op-appending tail of
ScaledDotProductFlashAttentionNode::expand_and_infer_properties (lines
246-506), over the already-filled attribute record a2 (K transposed in
place), the rebound Attn_scale input and the gathered dims: appends bmm1, the
optional attention-scale multiply, the optional bias add, the optional alibi
chain, the optional padding-mask chain, the optional causal-mask chain,
softmax, the dropout chain and bmm2, and fills O's dim and stride if the user
left them empty. The output recorded for bmm2 is the final value of the
shared O descriptor (the C++ sets its dims after wiring it). -/
def sdpa_fwd_assemble (cudnn_version cudnn_compiled_version : Nat)
    (a2 : Scaled_dot_product_flash_attention_attributes)
    (attn_scale_input : Option Tensor_attributes)
    (q : Tensor_attributes) (b h s_q s_kv d_v : Int) :
    Except String SdpaFwdExpandResult :=
  let bmm1_output : Tensor_attributes :=
    { virtual_output with dim := [b, h, s_q, s_kv],
                          stride := [h * s_q * s_kv, s_q * s_kv, s_kv, 1] }
  let bmm1_op := PrimOp.matmul "bmm1" a2.Q a2.K a2.SEQ_LEN_Q a2.SEQ_LEN_KV none bmm1_output
  let scale_step := fwd_scale_step attn_scale_input bmm1_output
  let bias_step := fwd_bias_step a2.Bias scale_step.2
  let alibi_step := fwd_alibi_step a2.alibi_mask h bias_step.2
  let padding_step := fwd_padding_step a2.padding_mask a2.SEQ_LEN_Q a2.SEQ_LEN_KV alibi_step.2.1
  let causal_step := fwd_causal_step a2.causal_mask padding_step.2.1
  match a2.is_inference with
  | none => Except.error "bad_optional_access: is_inference.value() read with no value set"
  | some is_inf =>
    let softmax_output : Tensor_attributes := virtual_output
    let softmax_stats : Option Tensor_attributes :=
      if is_inf then some virtual_output else a2.Stats
    let softmax_op := PrimOp.softmax "softmax" true false causal_step.2.1 softmax_output softmax_stats
    (fwd_dropout_seg cudnn_version cudnn_compiled_version a2 q.data_type b h s_q s_kv softmax_output).map
      (fun drop =>
        let bmm2_a : Tensor_attributes := { drop.2.1 with data_type := q.data_type }
        let O0 := a2.O.getD {}
        let O1 := if O0.dim = [] then { O0 with dim := [b, h, s_q, d_v] } else O0
        let O2 := if O1.stride = [] then
            { O1 with stride := [ (O1.dim.getD 3 0) * (O1.dim.getD 2 0) * (O1.dim.getD 1 0),
                                  (O1.dim.getD 3 0) * (O1.dim.getD 2 0),
                                  O1.dim.getD 3 0, 1 ] }
          else O1
        let bmm2_op := PrimOp.matmul "bmm2" (some bmm2_a) a2.V a2.SEQ_LEN_Q none a2.SEQ_LEN_KV O2
        { attrs := { a2 with Attn_scale := attn_scale_input, O := some O2 },
          ops := bmm1_op :: (scale_step.1 ++ bias_step.1 ++ alibi_step.1 ++ padding_step.1 ++
                 causal_step.1 ++ [softmax_op] ++ drop.1 ++ [bmm2_op]),
          rng_output := drop.2.2.1,
          dropout_scale := drop.2.2.2,
          negative_inf_causal := causal_step.2.2,
          negative_inf_padding := padding_step.2.2,
          alibi_slopes := alibi_step.2.2 })

/-- ScaledDotProductFlashAttentionNode::expand_and_infer_properties
(lines 206-507): fill from context, gather the Q/K/V dims, transpose K in
place, rebind Attn_scale to a fresh pass-by-value tensor when the literal
attn_scale_value is set, then append the primitive chain via
sdpa_fwd_assemble. -/
def sdpa_fwd_expand (cudnn_version cudnn_compiled_version : Nat) (context : Context)
    (attrs0 : Scaled_dot_product_flash_attention_attributes) :
    Except String SdpaFwdExpandResult :=
  let a1 := sdpa_fwd_fill_from_context context attrs0
  let q := a1.Q.getD {}
  let b := q.dim.getD 0 0
  let h := q.dim.getD 1 0
  let s_q := q.dim.getD 2 0
  let s_kv := (a1.K.getD {}).dim.getD 2 0
  let d_v := (a1.V.getD {}).dim.getD 3 0
  let a2 := { a1 with K := a1.K.map transpose_2_3 }
  let attn_scale_input : Option Tensor_attributes :=
    if a2.attn_scale_value.isSome then
      some { dim := [1, 1, 1, 1], stride := [1, 1, 1, 1],
             data_type := DataType_t.FLOAT, is_pass_by_value := true }
    else a2.Attn_scale
  sdpa_fwd_assemble cudnn_version cudnn_compiled_version a2 attn_scale_input q b h s_q s_kv d_v

/-- ScaledDotProductFlashAttentionNode::get_fe_workspace_size_node
(lines 532-537): h * sizeof(float), unconditionally (whether or not the alibi
slope vector that will occupy the workspace is actually introduced). -/
def sdpa_fwd_get_fe_workspace_size (attrs : Scaled_dot_product_flash_attention_attributes) : Int :=
  ((attrs.Q.getD {}).dim.getD 1 0) * 4

/-- std::numeric_limits<float>::lowest(), the most negative finite float:
-(2 - 2^-23) * 2^127 = -(2^128 - 2^104). The spec calls this value the
negative-infinity fill. -/
def float_lowest : ℚ := -(2 ^ 128 - 2 ^ 104)

/-- Keys of the pass-by-value map. The C++ map is keyed by the shared pointers
of the node's member tensors; a key here names that member. -/
inductive PbvKey where
  | dropout_scale
  | negative_inf_padding
  | negative_inf_causal
  | alibi_slopes
  | attn_scale
  | one_tensor
  | dropout_scale_inv
  | dQ_accum
  | softmax_sum
deriving Repr, DecidableEq, BEq

/-- pass_by_values_t: the value recorded for a pass-by-value tensor; either an
immediate scalar (half or float, modelled exactly over Rat) or the device
pointer of a workspace region, recorded as its byte offset from the node's
workspace base. -/
inductive pass_by_values_t where
  | half_scalar (v : ℚ)
  | float_scalar (v : ℚ)
  | device_pointer (workspace_offset : Int)
deriving Repr, DecidableEq

def pass_by_values_t.scalar_value : pass_by_values_t → Option ℚ
  | .half_scalar v => some v
  | .float_scalar v => some v
  | .device_pointer _ => none

/-- ScaledDotProductFlashAttentionNode::pass_by_value_tensors_ (lines 539-582)
in emplacement order: the dropout scale 1/(1-p) (half before compiled version
8903, float after; only when a probability is set and nonzero), the
negative-infinity padding and causal constants, the alibi slope vector (a host
buffer copied to the workspace, emplaced as the workspace pointer, offset 0),
and the attention-scale literal. -/
def sdpa_fwd_pass_by_value (cudnn_compiled_version : Nat)
    (attrs : Scaled_dot_product_flash_attention_attributes) :
    List (PbvKey × pass_by_values_t) :=
  (match attrs.dropout_probability with
   | some p =>
     if p ≠ 0 then
       [(PbvKey.dropout_scale,
         if cudnn_compiled_version < 8903 then pass_by_values_t.half_scalar (1 / (1 - p))
         else pass_by_values_t.float_scalar (1 / (1 - p)))]
     else []
   | none => []) ++
  (if attrs.padding_mask then
     [(PbvKey.negative_inf_padding, pass_by_values_t.float_scalar float_lowest)] else []) ++
  (if attrs.causal_mask then
     [(PbvKey.negative_inf_causal, pass_by_values_t.float_scalar float_lowest)] else []) ++
  (if attrs.alibi_mask then
     [(PbvKey.alibi_slopes, pass_by_values_t.device_pointer 0)] else []) ++
  (match attrs.attn_scale_value with
   | some v => [(PbvKey.attn_scale, pass_by_values_t.float_scalar v)]
   | none => [])

/-- ((s + 64 - 1) / 64) * 64, the round-up of a sequence length to the 64
granularity (lines 864-865; sequence lengths are nonnegative, where C++ and
Lean integer division agree). -/
def round_up_64 (s : Int) : Int :=
  ((s + 64 - 1) / 64) * 64

/-- required_dp_workspace_bytes = b * h * workspace_s_q * workspace_s_kv * 2
(line 866). -/
def required_dp_workspace_bytes (b h s_q s_kv : Int) : Int :=
  b * h * round_up_64 s_q * round_up_64 s_kv * 2

/-- The workspace-optimization decision (lines 842-875): only on runtime
version at least 8905 and device generation at least 9; the byte ceiling is
the parsed CUDNN_FRONTEND_ATTN_DP_WORKSPACE_LIMIT value, defaulting to
256 MiB; -1 always enables, 0 always disables, anything else enables exactly
when the required bytes do not exceed it. -/
def compute_use_workspace_opt (cudnn_version device_major : Nat)
    (env_dp_workspace_limit : Option Int) (b h s_q s_kv : Int) : Bool :=
  if cudnn_version ≥ 8905 ∧ device_major ≥ 9 then
    let max_dp_workspace_bytes : Int :=
      match env_dp_workspace_limit with
      | some n => n
      | none => 256 * 1024 * 1024
    if max_dp_workspace_bytes = -1 then true
    else if max_dp_workspace_bytes = 0 then false
    else decide (required_dp_workspace_bytes b h s_q s_kv ≤ max_dp_workspace_bytes)
  else false

/-- The helper-tensor and byte-size bookkeeping of
ScaledDotProductFlashAttentionBackwardNode::expand_and_infer_properties:
the alibi slope vector (lines 792-798), the workspace-optimization decision
and the non-virtual dQ accumulator (lines 842-884), and the non-virtual
softmax_sum required below runtime version 8905 (lines 1205-1212; the code
sets its dim and data type then but never a stride). The gradient-chain ops
that the same function appends do not feed the workspace or pass-by-value
queries and are not repeated here. -/
structure BwdWorkspaceState where
  use_workspace_opt : Bool
  alibi_slopes : Option Tensor_attributes
  alibi_slopes_size : Int
  dQ_accum : Option Tensor_attributes
  dQ_accum_size : Int
  softmax_sum : Tensor_attributes
  softmax_sum_size : Int
deriving Repr, DecidableEq

def sdpa_bwd_expand_workspace_state (cudnn_version device_major : Nat)
    (env_dp_workspace_limit : Option Int)
    (attrs : Scaled_dot_product_flash_attention_backward_attributes) : BwdWorkspaceState :=
  let q := attrs.Q.getD {}
  let b := q.dim.getD 0 0
  let h := q.dim.getD 1 0
  let s_q := q.dim.getD 2 0
  let d := q.dim.getD 3 0
  let s_kv := (attrs.K.getD {}).dim.getD 2 0
  let alibi_slopes : Option Tensor_attributes :=
    if attrs.alibi_mask then
      some { dim := [1, h, 1, 1], stride := [h, h, 1, 1], data_type := DataType_t.FLOAT }
    else none
  let alibi_slopes_size : Int := if attrs.alibi_mask then h * 4 else 0
  let use_workspace_opt :=
    compute_use_workspace_opt cudnn_version device_major env_dp_workspace_limit b h s_q s_kv
  let dQ_accum : Option Tensor_attributes :=
    if !use_workspace_opt then
      some { dim := [b, h, s_q, d], stride := [h * s_q * d, s_q * d, d, 1],
             data_type := DataType_t.FLOAT, reordering_type_F16x16 := true }
    else none
  let dQ_accum_size : Int := if !use_workspace_opt then b * h * s_q * d * 4 else 0
  let softmax_sum : Tensor_attributes :=
    if cudnn_version < 8905 then
      { dim := [b, h, s_q, 1], data_type := DataType_t.FLOAT, is_virtual := false }
    else { is_virtual := true }
  let softmax_sum_size : Int := if cudnn_version < 8905 then b * h * s_q * 4 else 0
  { use_workspace_opt := use_workspace_opt,
    alibi_slopes := alibi_slopes,
    alibi_slopes_size := alibi_slopes_size,
    dQ_accum := dQ_accum,
    dQ_accum_size := dQ_accum_size,
    softmax_sum := softmax_sum,
    softmax_sum_size := softmax_sum_size }

/-- ScaledDotProductFlashAttentionBackwardNode::get_fe_workspace_size_node
(lines 1217-1221): the sum of the three sizes set during expansion. -/
def sdpa_bwd_get_fe_workspace_size (st : BwdWorkspaceState) : Int :=
  st.alibi_slopes_size + st.dQ_accum_size + st.softmax_sum_size

/-- ScaledDotProductFlashAttentionBackwardNode::pass_by_value_tensors_
(lines 1223-1288) in emplacement order: the constant 1.0 for one_tensor, the
attention-scale literal, the alibi slope vector (workspace pointer, offset 0),
the negative-infinity padding and causal constants, the dropout scale
1/(1-p) and inverse scale 1-p when a probability is set, the zero-filled dQ
accumulator (workspace pointer past the alibi bytes) and the non-virtual
softmax_sum (workspace pointer past the alibi and accumulator bytes; the
advancing sizes are 0 whenever the branch that advances them was not taken). -/
def sdpa_bwd_pass_by_value (attrs : Scaled_dot_product_flash_attention_backward_attributes)
    (st : BwdWorkspaceState) : List (PbvKey × pass_by_values_t) :=
  [(PbvKey.one_tensor, pass_by_values_t.float_scalar 1)] ++
  (match attrs.attn_scale_value with
   | some v => [(PbvKey.attn_scale, pass_by_values_t.float_scalar v)]
   | none => []) ++
  (if attrs.alibi_mask then
     [(PbvKey.alibi_slopes, pass_by_values_t.device_pointer 0)] else []) ++
  (if attrs.padding_mask then
     [(PbvKey.negative_inf_padding, pass_by_values_t.float_scalar float_lowest)] else []) ++
  (if attrs.causal_mask then
     [(PbvKey.negative_inf_causal, pass_by_values_t.float_scalar float_lowest)] else []) ++
  (match attrs.dropout_probability with
   | some p => [(PbvKey.dropout_scale, pass_by_values_t.float_scalar (1 / (1 - p))),
                (PbvKey.dropout_scale_inv, pass_by_values_t.float_scalar (1 - p))]
   | none => []) ++
  (match st.dQ_accum with
   | some t =>
     if !t.is_virtual then [(PbvKey.dQ_accum, pass_by_values_t.device_pointer st.alibi_slopes_size)]
     else []
   | none => []) ++
  (if !st.softmax_sum.is_virtual then
     [(PbvKey.softmax_sum, pass_by_values_t.device_pointer (st.alibi_slopes_size + st.dQ_accum_size))]
   else [])

/-- The byte size of a non-virtual helper tensor: the product of its dims
times the element size of its data type (4 for FLOAT). -/
def data_type_size : DataType_t → Int
  | DataType_t.FLOAT => 4
  | DataType_t.INT32 => 4
  | DataType_t.HALF => 2
  | DataType_t.BFLOAT16 => 2
  | DataType_t.BOOLEAN => 1
  | DataType_t.NOT_SET => 0

def tensor_bytes (t : Tensor_attributes) : Int :=
  t.dim.prod * data_type_size t.data_type

/-- Layernorm_backward_attributes: the ports of the layer-norm backward node
(inputs X, DY, SCALE, MEAN, INV_VARIANCE; outputs DX, DSCALE, DBIAS). -/
structure Layernorm_backward_attributes where
  X : Option Tensor_attributes := none
  DY : Option Tensor_attributes := none
  SCALE : Option Tensor_attributes := none
  MEAN : Option Tensor_attributes := none
  INV_VARIANCE : Option Tensor_attributes := none
  DX : Option Tensor_attributes := none
  DSCALE : Option Tensor_attributes := none
  DBIAS : Option Tensor_attributes := none
deriving Repr, DecidableEq

/-- Modelled from the spec: detail::generate_NHWC_stride_order and
detail::generate_stride (graph_helpers.h, not under src/) produce the default
packed NHWC (channel-fastest) strides for a shape [n, c, d1, ..., dk]: the
channel gets stride 1, the spatial dims are packed above it, n gets the full
slice. Its exact values never matter to the claims settled here: it is only
invoked on tensors whose stride is empty. -/
def generate_NHWC_stride (dim : List Int) : List Int :=
  match dim with
  | [] => []
  | _n :: rest =>
    match rest with
    | [] => [1]
    | c :: spatial =>
      (c * spatial.prod) :: 1 ::
        (List.range spatial.length).map (fun i => c * ((spatial.drop (i + 1)).prod))

def dln_fill_from_context (context : Context)
    (attrs : Layernorm_backward_attributes) : Layernorm_backward_attributes :=
  let f := tensor_fill_data_type context.io_data_type
  { attrs with
    X := attrs.X.map f, DY := attrs.DY.map f, SCALE := attrs.SCALE.map f,
    MEAN := attrs.MEAN.map f, INV_VARIANCE := attrs.INV_VARIANCE.map f,
    DX := attrs.DX.map f, DSCALE := attrs.DSCALE.map f, DBIAS := attrs.DBIAS.map f }

/-- Only infer dims if the user did not set them (dln.h lines 52-56, 66-70,
84-87). -/
def infer_dim_if_empty (d : List Int) (t : Tensor_attributes) : Tensor_attributes :=
  if t.dim = [] then { t with dim := d } else t

/-- Only infer strides if the user did not set them, defaulting to NHWC
(dln.h lines 57-62, 71-76, 88-93). -/
def infer_NHWC_stride_if_empty (t : Tensor_attributes) : Tensor_attributes :=
  if t.stride = [] then { t with stride := generate_NHWC_stride t.dim } else t

/-- The per-tensor inference step the DLN node applies to DY, DX, DSCALE and
DBIAS: fill the data type from context, then the dims, then the strides, each
only when unset. -/
def dln_infer_tensor (io_data_type : DataType_t) (d : List Int)
    (t : Tensor_attributes) : Tensor_attributes :=
  infer_NHWC_stride_if_empty (infer_dim_if_empty d (tensor_fill_data_type io_data_type t))

structure DLNExpandResult where
  attrs : Layernorm_backward_attributes
  epsilon : Option Tensor_attributes
deriving Repr, DecidableEq

/-- DLNNode::expand_and_infer_properties (dln.h lines 38-108): fill from
context; infer DY and DX dims from X and their strides as NHWC when unset;
infer DSCALE and DBIAS dims as X's dims with the leading entry replaced by 1
and their strides as NHWC when unset; create the pass-by-value epsilon tensor
below runtime version 8906. -/
def dln_expand_and_infer (cudnn_version : Nat) (context : Context)
    (attrs0 : Layernorm_backward_attributes) : DLNExpandResult :=
  let a := dln_fill_from_context context attrs0
  let x_dim := (a.X.getD {}).dim
  let scale_bias_dim : List Int :=
    match x_dim with
    | [] => []
    | _ :: rest => 1 :: rest
  { attrs := { a with
      DY := some (dln_infer_tensor context.io_data_type x_dim (attrs0.DY.getD {})),
      DX := some (dln_infer_tensor context.io_data_type x_dim (attrs0.DX.getD {})),
      DSCALE := some (dln_infer_tensor context.io_data_type scale_bias_dim (attrs0.DSCALE.getD {})),
      DBIAS := some (dln_infer_tensor context.io_data_type scale_bias_dim (attrs0.DBIAS.getD {})) },
    epsilon :=
      if cudnn_version < 8906 then
        some { dim := [1, 1, 1, 1], stride := [1, 1, 1, 1], is_pass_by_value := true,
               data_type := DataType_t.FLOAT }
      else none }

/-! Concrete descriptors and contexts used by the witnesses and
counterexamples. -/

/-- A fully specified packed rank-4 tensor with unit innermost stride. -/
def t_packed : Tensor_attributes :=
  { dim := [2, 4, 128, 64], stride := [32768, 8192, 64, 1], data_type := DataType_t.HALF }

/-- A statistics tensor whose last two strides are 1. -/
def t_stats_ok : Tensor_attributes :=
  { dim := [2, 4, 128, 1], stride := [512, 128, 1, 1], data_type := DataType_t.FLOAT }

/-- A tensor whose innermost stride is 2 rather than 1. -/
def t_bad_stride : Tensor_attributes :=
  { dim := [2, 4, 128, 64], stride := [65536, 16384, 128, 2], data_type := DataType_t.HALF }

/-- A scalar-shaped seed / offset tensor. -/
def t_scalar_i32 : Tensor_attributes :=
  { dim := [1, 1, 1, 1], stride := [1, 1, 1, 1], data_type := DataType_t.INT32 }

def ctx_example : Context :=
  { intermediate_data_type := DataType_t.FLOAT, io_data_type := DataType_t.HALF }


/-! ### Generic lemmas about check sequences -/

theorem run_checks_ne_ok {d : error_t} {l : List (Bool × error_t)}
    (hmem : ∃ p ∈ l, (p : Bool × error_t).1 = true)
    (hall : ∀ p ∈ l, (p : Bool × error_t).2.code ≠ error_code_t.OK) :
    (run_checks d l).code ≠ error_code_t.OK := by
  induction l with
  | nil => simp at hmem
  | cons p rest ih =>
    rcases p with ⟨c, e⟩
    by_cases hc : c = true
    · have : run_checks d ((c, e) :: rest) = e := by simp [run_checks, hc]
      rw [this]
      exact hall (c, e) (List.mem_cons_self _ _)
    · have hstep : run_checks d ((c, e) :: rest) = run_checks d rest := by
        simp [run_checks, hc]
      rw [hstep]
      obtain ⟨q, hq, hq1⟩ := hmem
      rcases List.mem_cons.mp hq with h | h
      · subst h; exact absurd hq1 hc
      · exact ih ⟨q, h, hq1⟩ (fun r hr => hall r (List.mem_cons_of_mem _ hr))

/-- Every check of the forward pre-validation carries a non-OK error code. -/
theorem sdpa_fwd_checks_codes (context : Context)
    (attrs : Scaled_dot_product_flash_attention_attributes) :
    ∀ p ∈ sdpa_fwd_checks context attrs, (p : Bool × error_t).2.code ≠ error_code_t.OK := by
  intro p hp
  simp only [sdpa_fwd_checks, List.mem_cons, List.not_mem_nil, or_false] at hp
  rcases hp with rfl | rfl | rfl | rfl | rfl | rfl | rfl | rfl | rfl | rfl | rfl | rfl | rfl | rfl | rfl | rfl <;> simp

/-- Every check of the backward pre-validation carries a non-OK error code. -/
theorem sdpa_bwd_checks_codes (context : Context)
    (attrs : Scaled_dot_product_flash_attention_backward_attributes) :
    ∀ p ∈ sdpa_bwd_checks context attrs, (p : Bool × error_t).2.code ≠ error_code_t.OK := by
  intro p hp
  simp only [sdpa_bwd_checks, List.mem_cons, List.not_mem_nil, or_false] at hp
  rcases hp with rfl | rfl | rfl | rfl | rfl | rfl | rfl | rfl | rfl | rfl | rfl | rfl | rfl | rfl | rfl | rfl | rfl | rfl <;> simp

/-! ### Concrete attribute sets used by witnesses and counterexamples -/

/-- A forward attribute set that passes pre-validation. -/
def fwd_example_base : Scaled_dot_product_flash_attention_attributes :=
  { Q := some t_packed, K := some t_packed, V := some t_packed, O := some t_packed,
    is_inference := some true }

/-- A backward attribute set that passes pre-validation. -/
def bwd_example_base : Scaled_dot_product_flash_attention_backward_attributes :=
  { Q := some t_packed, K := some t_packed, V := some t_packed, O := some t_packed,
    dO := some t_packed, Stats := some t_stats_ok,
    dQ := some t_packed, dK := some t_packed, dV := some t_packed }

/-! ### C4 -/

/-- The C4 counterexample attribute set: both dropout attributes bound, and Q
with a non-unit innermost stride. -/
def fwd_c4_counterexample_attrs : Scaled_dot_product_flash_attention_attributes :=
  { fwd_example_base with
    Q := some t_bad_stride,
    dropout_probability := some (1/2),
    Dropout_mask := some t_packed }

/-- C4 counterexample: an attribute set with both a dropout probability and a
Dropout_mask bound whose Q innermost stride is 2; pre-validation fails, but
with GRAPH_NOT_SUPPORTED (the stride check runs first), not with the claimed
ATTRIBUTE_NOT_SET. -/
theorem sdpa_fwd_dropout_exclusion_counterexample :
    fwd_c4_counterexample_attrs.dropout_probability.isSome = true ∧
    fwd_c4_counterexample_attrs.Dropout_mask.isSome = true ∧
    (sdpa_fwd_pre_validate ctx_example fwd_c4_counterexample_attrs).code
      = error_code_t.GRAPH_NOT_SUPPORTED := by
  refine ⟨rfl, rfl, ?_⟩
  rfl

/-- C4 (amended): whenever both a dropout probability and a user Dropout_mask
are set, pre-validation of the attention-forward and attention-backward nodes
always fails; the typed error is ATTRIBUTE_NOT_SET as soon as no earlier check
(port presence also gives ATTRIBUTE_NOT_SET; a non-unit innermost stride gives
GRAPH_NOT_SUPPORTED) fails first. -/
theorem sdpa_dropout_mask_mutual_exclusion :
    (∀ (context : Context) (attrs : Scaled_dot_product_flash_attention_attributes),
        attrs.dropout_probability.isSome = true → attrs.Dropout_mask.isSome = true →
        (sdpa_fwd_pre_validate context attrs).code ≠ error_code_t.OK) ∧
    (∀ (context : Context) (attrs : Scaled_dot_product_flash_attention_attributes),
        attrs.Q.isNone = false → attrs.K.isNone = false →
        attrs.V.isNone = false → attrs.O.isNone = false →
        stride_back (attrs.Q.getD {}) = 1 → stride_back (attrs.K.getD {}) = 1 →
        stride_back (attrs.V.getD {}) = 1 →
        attrs.dropout_probability.isSome = true → attrs.Dropout_mask.isSome = true →
        (sdpa_fwd_pre_validate context attrs).code = error_code_t.ATTRIBUTE_NOT_SET) ∧
    (∀ (context : Context) (attrs : Scaled_dot_product_flash_attention_backward_attributes),
        attrs.dropout_probability.isSome = true → attrs.Dropout_mask.isSome = true →
        (sdpa_bwd_pre_validate context attrs).code ≠ error_code_t.OK) ∧
    (∀ (context : Context) (attrs : Scaled_dot_product_flash_attention_backward_attributes),
        attrs.Q.isNone = false → attrs.K.isNone = false → attrs.V.isNone = false →
        attrs.O.isNone = false → attrs.dO.isNone = false → attrs.Stats.isNone = false →
        attrs.dQ.isNone = false → attrs.dK.isNone = false → attrs.dV.isNone = false →
        sdpa_bwd_last_dim_is_one attrs →
        attrs.dropout_probability.isSome = true → attrs.Dropout_mask.isSome = true →
        (sdpa_bwd_pre_validate context attrs).code = error_code_t.ATTRIBUTE_NOT_SET) := by
  refine ⟨?_, ?_, ?_, ?_⟩
  · intro context attrs hp hm
    apply run_checks_ne_ok ?_ (sdpa_fwd_checks_codes context attrs)
    refine ⟨(attrs.dropout_probability.isSome && attrs.Dropout_mask.isSome,
      { code := error_code_t.ATTRIBUTE_NOT_SET,
        msg := "Using both, custom dropout mask and internal-mask generation using dropout probability, is ill-formed." }),
      ?_, by simp [hp, hm]⟩
    simp [sdpa_fwd_checks]
  · intro context attrs hq hk hv ho hsq hsk hsv hp hm
    by_cases hii : attrs.is_inference.isNone = true <;>
      simp [sdpa_fwd_pre_validate, sdpa_fwd_checks, run_checks,
            hq, hk, hv, ho, hsq, hsk, hsv, hp, hm, hii]
  · intro context attrs hp hm
    apply run_checks_ne_ok ?_ (sdpa_bwd_checks_codes context attrs)
    refine ⟨(attrs.dropout_probability.isSome && attrs.Dropout_mask.isSome,
      { code := error_code_t.ATTRIBUTE_NOT_SET,
        msg := "Using both, custom dropout mask and internal-mask generation using dropout probability, is ill-formed." }),
      ?_, by simp [hp, hm]⟩
    simp [sdpa_bwd_checks]
  · intro context attrs h1 h2 h3 h4 h5 h6 h7 h8 h9 hs hp hm
    simp [sdpa_bwd_pre_validate, sdpa_bwd_checks, run_checks,
          h1, h2, h3, h4, h5, h6, h7, h8, h9, hs, hp, hm]

/-- C4 witness: at concrete attribute sets with both dropout attributes set
and everything else valid, forward and backward pre-validation report
ATTRIBUTE_NOT_SET, and a generic failure is visible as a non-OK code. -/
theorem sdpa_dropout_mask_mutual_exclusion_witness :
    (sdpa_fwd_pre_validate ctx_example
      { fwd_example_base with
        dropout_probability := some (1/2),
        Dropout_mask := some t_packed }).code = error_code_t.ATTRIBUTE_NOT_SET ∧
    (sdpa_bwd_pre_validate ctx_example
      { bwd_example_base with
        dropout_probability := some (1/2),
        Dropout_mask := some t_packed }).code = error_code_t.ATTRIBUTE_NOT_SET := by
  constructor
  · exact sdpa_dropout_mask_mutual_exclusion.2.1 ctx_example _
      rfl rfl rfl rfl rfl rfl rfl rfl rfl
  · exact sdpa_dropout_mask_mutual_exclusion.2.2.2 ctx_example _
      rfl rfl rfl rfl rfl rfl rfl rfl rfl (by decide) rfl rfl

/-! ### C10 -/

/-- C10: with dropout probability exactly 1 and no other constraint violated
(all required ports bound, unit innermost strides, is_inference set, no
Dropout_mask), pre-validation of both attention nodes fails with
ATTRIBUTE_NOT_SET, since the scale 1/(1-p) would not be well formed. -/
theorem sdpa_dropout_probability_one_rejected :
    (∀ (context : Context) (attrs : Scaled_dot_product_flash_attention_attributes),
        attrs.Q.isNone = false → attrs.K.isNone = false →
        attrs.V.isNone = false → attrs.O.isNone = false →
        stride_back (attrs.Q.getD {}) = 1 → stride_back (attrs.K.getD {}) = 1 →
        stride_back (attrs.V.getD {}) = 1 →
        attrs.is_inference.isNone = false → attrs.Dropout_mask = none →
        attrs.dropout_probability = some 1 →
        (sdpa_fwd_pre_validate context attrs).code = error_code_t.ATTRIBUTE_NOT_SET) ∧
    (∀ (context : Context) (attrs : Scaled_dot_product_flash_attention_backward_attributes),
        attrs.Q.isNone = false → attrs.K.isNone = false → attrs.V.isNone = false →
        attrs.O.isNone = false → attrs.dO.isNone = false → attrs.Stats.isNone = false →
        attrs.dQ.isNone = false → attrs.dK.isNone = false → attrs.dV.isNone = false →
        sdpa_bwd_last_dim_is_one attrs → attrs.Dropout_mask = none →
        attrs.dropout_probability = some 1 →
        (sdpa_bwd_pre_validate context attrs).code = error_code_t.ATTRIBUTE_NOT_SET) := by
  constructor
  · intro context attrs hq hk hv ho hsq hsk hsv hii hm hp
    simp [sdpa_fwd_pre_validate, sdpa_fwd_checks, run_checks,
          hq, hk, hv, ho, hsq, hsk, hsv, hii, hm, hp]
  · intro context attrs h1 h2 h3 h4 h5 h6 h7 h8 h9 hs hm hp
    simp [sdpa_bwd_pre_validate, sdpa_bwd_checks, run_checks,
          h1, h2, h3, h4, h5, h6, h7, h8, h9, hs, hm, hp]

/-- C10 witness: dropout probability 1 on otherwise valid concrete forward and
backward attribute sets is rejected with ATTRIBUTE_NOT_SET. -/
theorem sdpa_dropout_probability_one_rejected_witness :
    (sdpa_fwd_pre_validate ctx_example
      { fwd_example_base with
        dropout_probability := some 1 }).code = error_code_t.ATTRIBUTE_NOT_SET ∧
    (sdpa_bwd_pre_validate ctx_example
      { bwd_example_base with
        dropout_probability := some 1 }).code = error_code_t.ATTRIBUTE_NOT_SET := by
  constructor
  · exact sdpa_dropout_probability_one_rejected.1 ctx_example _
      rfl rfl rfl rfl rfl rfl rfl rfl rfl rfl
  · exact sdpa_dropout_probability_one_rejected.2 ctx_example _
      rfl rfl rfl rfl rfl rfl rfl rfl rfl (by decide) rfl rfl

/-! ### C3 -/

/-- The C3 counterexample attribute set: everything valid except that the
bound output O has innermost stride 2. -/
def fwd_c3_counterexample_attrs : Scaled_dot_product_flash_attention_attributes :=
  { fwd_example_base with O := some t_bad_stride }

/-- C3 counterexample: the bound output O of the forward node has innermost
stride 2, yet pre-validation succeeds (it returns OK; O's stride is only
examined at post-validation), refuting the claim that pre-validation fails
whenever any bound input or output tensor has a non-unit innermost stride. -/
theorem sdpa_fwd_prevalidate_stride_counterexample :
    fwd_c3_counterexample_attrs.O = some t_bad_stride ∧
    stride_back t_bad_stride = 2 ∧
    sdpa_fwd_pre_validate ctx_example fwd_c3_counterexample_attrs = ok_error := by
  refine ⟨rfl, rfl, ?_⟩
  rfl

/-- C3 (amended): pre-validation checks the unit-innermost-stride invariant
with GRAPH_NOT_SUPPORTED on a fixed subset of the bound tensors: the forward
node checks its inputs Q, K, V (the output O is checked at post-validation,
also with GRAPH_NOT_SUPPORTED); the backward node checks Q, K, V, O, dO, dQ,
dK, dV and the last two stride entries of Stats. Strides are never corrected:
validation only reports errors. Tensors outside these subsets (the forward O
and Bias at pre-validation, for example) are not stride-checked there. -/
theorem sdpa_stride_prevalidation_scope :
    (∀ (context : Context) (attrs : Scaled_dot_product_flash_attention_attributes),
        attrs.Q.isNone = false → attrs.K.isNone = false →
        attrs.V.isNone = false → attrs.O.isNone = false →
        (stride_back (attrs.Q.getD {}) ≠ 1 ∨ stride_back (attrs.K.getD {}) ≠ 1 ∨
         stride_back (attrs.V.getD {}) ≠ 1) →
        (sdpa_fwd_pre_validate context attrs).code = error_code_t.GRAPH_NOT_SUPPORTED) ∧
    (∀ (context : Context) (attrs : Scaled_dot_product_flash_attention_backward_attributes),
        attrs.Q.isNone = false → attrs.K.isNone = false → attrs.V.isNone = false →
        attrs.O.isNone = false → attrs.dO.isNone = false → attrs.Stats.isNone = false →
        attrs.dQ.isNone = false → attrs.dK.isNone = false → attrs.dV.isNone = false →
        ¬ sdpa_bwd_last_dim_is_one attrs →
        (sdpa_bwd_pre_validate context attrs).code = error_code_t.GRAPH_NOT_SUPPORTED) ∧
    (∀ (attrs : Scaled_dot_product_flash_attention_attributes),
        stride_back (attrs.O.getD {}) ≠ 1 →
        (sdpa_fwd_post_validate attrs).code = error_code_t.GRAPH_NOT_SUPPORTED) := by
  refine ⟨?_, ?_, ?_⟩
  · intro context attrs hq hk hv ho hbad
    by_cases hsq : stride_back (attrs.Q.getD {}) = 1 <;>
      by_cases hsk : stride_back (attrs.K.getD {}) = 1 <;>
        by_cases hsv : stride_back (attrs.V.getD {}) = 1 <;>
          simp_all [sdpa_fwd_pre_validate, sdpa_fwd_checks, run_checks,
                    Option.isNone_eq_false_iff, Option.isSome_iff_ne_none]
  · intro context attrs h1 h2 h3 h4 h5 h6 h7 h8 h9 hs
    simp [sdpa_bwd_pre_validate, sdpa_bwd_checks, run_checks,
          h1, h2, h3, h4, h5, h6, h7, h8, h9, hs]
  · intro attrs hbad
    simp [sdpa_fwd_post_validate, hbad]

/-- C3 witness: on concrete attribute sets with a bad innermost stride on a
checked tensor, forward and backward pre-validation and forward
post-validation all report GRAPH_NOT_SUPPORTED. -/
theorem sdpa_stride_prevalidation_scope_witness :
    (sdpa_fwd_pre_validate ctx_example
      { fwd_example_base with K := some t_bad_stride }).code = error_code_t.GRAPH_NOT_SUPPORTED ∧
    (sdpa_bwd_pre_validate ctx_example
      { bwd_example_base with dV := some t_bad_stride }).code = error_code_t.GRAPH_NOT_SUPPORTED ∧
    (sdpa_fwd_post_validate fwd_c3_counterexample_attrs).code = error_code_t.GRAPH_NOT_SUPPORTED := by
  refine ⟨?_, ?_, ?_⟩
  · exact sdpa_stride_prevalidation_scope.1 ctx_example _
      rfl rfl rfl rfl (Or.inr (Or.inl (by decide)))
  · exact sdpa_stride_prevalidation_scope.2.1 ctx_example _
      rfl rfl rfl rfl rfl rfl rfl rfl rfl (by decide)
  · exact sdpa_stride_prevalidation_scope.2.2 fwd_c3_counterexample_attrs (by decide)

/-! ### C2 -/

/-- C2: on supporting backend versions (at least 8905) and device generations
(major at least 9), the workspace-optimization decision of the backward node
follows the three-valued ceiling exactly: ceiling unset behaves as the fixed
256 MiB default, -1 always enables, 0 always disables, and a positive ceiling
enables exactly when the required accumulator bytes
b * h * roundup64(s_q) * roundup64(s_kv) * 2 are at most the ceiling, so the
decision flips exactly at the boundary. The last conjunct ties the decision
made inside expansion to its defining formula on the Q / K dims. -/
theorem sdpa_bwd_workspace_opt_ceiling
    (cudnn_version device_major : Nat) (b h s_q s_kv : Int)
    (hv : 8905 ≤ cudnn_version) (hm : 9 ≤ device_major) :
    (compute_use_workspace_opt cudnn_version device_major none b h s_q s_kv
       = decide (required_dp_workspace_bytes b h s_q s_kv ≤ 256 * 1024 * 1024)) ∧
    (compute_use_workspace_opt cudnn_version device_major (some (-1)) b h s_q s_kv = true) ∧
    (compute_use_workspace_opt cudnn_version device_major (some 0) b h s_q s_kv = false) ∧
    (∀ L : Int, 0 < L →
       (compute_use_workspace_opt cudnn_version device_major (some L) b h s_q s_kv = true
         ↔ required_dp_workspace_bytes b h s_q s_kv ≤ L)) ∧
    (∀ (attrs : Scaled_dot_product_flash_attention_backward_attributes)
       (env : Option Int) (d : Int),
       (attrs.Q.getD {}).dim = [b, h, s_q, d] →
       (attrs.K.getD {}).dim.getD 2 0 = s_kv →
       (sdpa_bwd_expand_workspace_state cudnn_version device_major env attrs).use_workspace_opt
         = compute_use_workspace_opt cudnn_version device_major env b h s_q s_kv) := by
  refine ⟨?_, ?_, ?_, ?_, ?_⟩
  · simp [compute_use_workspace_opt, hv, hm]
  · simp [compute_use_workspace_opt, hv, hm]
  · simp [compute_use_workspace_opt, hv, hm]
  · intro L hL
    have hL1 : L ≠ -1 := by omega
    have hL0 : L ≠ 0 := by omega
    simp [compute_use_workspace_opt, hv, hm, hL1, hL0]
  · intro attrs env d hqdim hkdim
    simp only [sdpa_bwd_expand_workspace_state]
    rw [hqdim, hkdim]
    simp [List.getD]

/-- C2 witness: at b = h = 1, s_q = s_kv = 64 the required bytes are
64 * 64 * 2 = 8192; with ceiling 8192 the optimization is enabled (boundary
inclusive), with ceiling 8191 disabled, with -1 enabled and with 0 disabled;
unset behaves as the 256 MiB default; and the expansion state agrees with the
formula on a concrete attribute set. -/
theorem sdpa_bwd_workspace_opt_ceiling_witness :
    (compute_use_workspace_opt 8905 9 none 1 1 64 64
       = decide (required_dp_workspace_bytes 1 1 64 64 ≤ 256 * 1024 * 1024)) ∧
    (compute_use_workspace_opt 8905 9 (some (-1)) 1 1 64 64 = true) ∧
    (compute_use_workspace_opt 8905 9 (some 0) 1 1 64 64 = false) ∧
    (compute_use_workspace_opt 8905 9 (some 8192) 1 1 64 64 = true ↔
       required_dp_workspace_bytes 1 1 64 64 ≤ 8192) ∧
    (compute_use_workspace_opt 8905 9 (some 8191) 1 1 64 64 = true ↔
       required_dp_workspace_bytes 1 1 64 64 ≤ 8191) ∧
    ((sdpa_bwd_expand_workspace_state 8905 9 (some 8192) bwd_example_base).use_workspace_opt
       = compute_use_workspace_opt 8905 9 (some 8192) 2 4 128 128) := by
  have h := sdpa_bwd_workspace_opt_ceiling 8905 9 1 1 64 64 (by decide) (by decide)
  have h2 := sdpa_bwd_workspace_opt_ceiling 8905 9 2 4 128 128 (by decide) (by decide)
  exact ⟨h.1, h.2.1, h.2.2.1, h.2.2.2.1 8192 (by decide), h.2.2.2.1 8191 (by decide),
         h2.2.2.2.2 bwd_example_base (some 8192) 64 (by decide) (by decide)⟩

/-! ### C5 -/

/-- C5 counterexample: a forward attribute set with positional bias (alibi)
disabled, for which the claim predicts an auxiliary-buffer size of 0; the
node's size query nevertheless returns h * sizeof(float) = 4 * 4 = 16. -/
theorem sdpa_fwd_workspace_size_counterexample :
    fwd_example_base.alibi_mask = false ∧
    sdpa_fwd_get_fe_workspace_size fwd_example_base = 16 := by
  exact ⟨rfl, by decide⟩

/-- C5 (amended): the forward node's auxiliary-buffer size query returns
heads * 4 bytes unconditionally — the byte size of the per-head slope vector
even when positional bias is disabled and no helper tensor was introduced.
The backward node's query returns exactly the sum of the byte sizes of the
helper tensors it introduced: the slope vector bytes, the dQ-accumulator
bytes and the non-virtual softmax_sum bytes, each term 0 when the
corresponding helper is absent (or, for softmax_sum, left virtual). -/
theorem sdpa_workspace_size_accounting :
    (∀ (attrs : Scaled_dot_product_flash_attention_attributes)
       (q : Tensor_attributes) (b h s_q d : Int),
       attrs.Q = some q → q.dim = [b, h, s_q, d] →
       sdpa_fwd_get_fe_workspace_size attrs = h * 4) ∧
    (∀ (cudnn_version device_major : Nat) (env : Option Int)
       (attrs : Scaled_dot_product_flash_attention_backward_attributes),
       sdpa_bwd_get_fe_workspace_size
           (sdpa_bwd_expand_workspace_state cudnn_version device_major env attrs)
         = (match (sdpa_bwd_expand_workspace_state cudnn_version device_major env attrs).alibi_slopes with
            | some t => tensor_bytes t
            | none => 0)
           + (match (sdpa_bwd_expand_workspace_state cudnn_version device_major env attrs).dQ_accum with
              | some t => tensor_bytes t
              | none => 0)
           + (if (sdpa_bwd_expand_workspace_state cudnn_version device_major env attrs).softmax_sum.is_virtual
              then 0
              else tensor_bytes (sdpa_bwd_expand_workspace_state cudnn_version device_major env attrs).softmax_sum)) := by
  constructor
  · intro attrs q b h s_q d hq hdim
    simp [sdpa_fwd_get_fe_workspace_size, hq, hdim, List.getD]
  · intro cudnn_version device_major env attrs
    simp only [sdpa_bwd_expand_workspace_state, sdpa_bwd_get_fe_workspace_size]
    split_ifs <;> simp_all [tensor_bytes, data_type_size] <;> ring

/-- C5 witness: concrete evaluations of both conjuncts; in particular on a
backward attribute set with alibi enabled, on an old version (8904) and a
non-supporting device (so the dQ accumulator and a non-virtual softmax_sum
are introduced), the sum matches the helper-tensor byte sizes. -/
theorem sdpa_workspace_size_accounting_witness :
    sdpa_fwd_get_fe_workspace_size fwd_example_base = 4 * 4 ∧
    sdpa_bwd_get_fe_workspace_size
        (sdpa_bwd_expand_workspace_state 8904 8 none
          { bwd_example_base with alibi_mask := true })
      = (match (sdpa_bwd_expand_workspace_state 8904 8 none
            { bwd_example_base with alibi_mask := true }).alibi_slopes with
         | some t => tensor_bytes t
         | none => 0)
        + (match (sdpa_bwd_expand_workspace_state 8904 8 none
             { bwd_example_base with alibi_mask := true }).dQ_accum with
           | some t => tensor_bytes t
           | none => 0)
        + (if (sdpa_bwd_expand_workspace_state 8904 8 none
              { bwd_example_base with alibi_mask := true }).softmax_sum.is_virtual
           then 0
           else tensor_bytes (sdpa_bwd_expand_workspace_state 8904 8 none
              { bwd_example_base with alibi_mask := true }).softmax_sum) := by
  constructor
  · exact sdpa_workspace_size_accounting.1 fwd_example_base t_packed 2 4 128 64 rfl rfl
  · exact sdpa_workspace_size_accounting.2 8904 8 none _

/-! ### C6 -/

/-- Lookup of a pass-by-value entry by its (member-tensor) key: the C++ map is
keyed by shared pointers, which are pairwise distinct member tensors here. -/
def find_pbv (k : PbvKey) : List (PbvKey × pass_by_values_t) → Option pass_by_values_t
  | [] => none
  | (k2, v) :: rest => if k2 = k then some v else find_pbv k rest

/-- C6: whenever the padding mask or the causal mask is enabled on the
attention-forward or attention-backward node, the materialize query records,
for the corresponding mask-select constant tensor, exactly the
negative-infinity fill value std::numeric_limits of float lowest (as a float
scalar). -/
theorem sdpa_negative_inf_mask_constants :
    (∀ (cudnn_compiled_version : Nat)
       (attrs : Scaled_dot_product_flash_attention_attributes),
       (attrs.padding_mask = true →
          find_pbv PbvKey.negative_inf_padding (sdpa_fwd_pass_by_value cudnn_compiled_version attrs)
            = some (pass_by_values_t.float_scalar float_lowest)) ∧
       (attrs.causal_mask = true →
          find_pbv PbvKey.negative_inf_causal (sdpa_fwd_pass_by_value cudnn_compiled_version attrs)
            = some (pass_by_values_t.float_scalar float_lowest))) ∧
    (∀ (attrs : Scaled_dot_product_flash_attention_backward_attributes)
       (st : BwdWorkspaceState),
       (attrs.padding_mask = true →
          find_pbv PbvKey.negative_inf_padding (sdpa_bwd_pass_by_value attrs st)
            = some (pass_by_values_t.float_scalar float_lowest)) ∧
       (attrs.causal_mask = true →
          find_pbv PbvKey.negative_inf_causal (sdpa_bwd_pass_by_value attrs st)
            = some (pass_by_values_t.float_scalar float_lowest))) := by
  constructor
  · intro cudnn_compiled_version attrs
    constructor
    · intro hpad
      rcases hdp : attrs.dropout_probability with _ | p
      · simp [sdpa_fwd_pass_by_value, find_pbv, hdp, hpad]
      · by_cases hp0 : p = 0 <;>
          by_cases hv : cudnn_compiled_version < 8903 <;>
            simp [sdpa_fwd_pass_by_value, find_pbv, hdp, hpad, hp0, hv]
    · intro hcau
      rcases hdp : attrs.dropout_probability with _ | p
      · by_cases hpad : attrs.padding_mask <;>
          simp [sdpa_fwd_pass_by_value, find_pbv, hdp, hcau, hpad]
      · by_cases hp0 : p = 0 <;>
          by_cases hv : cudnn_compiled_version < 8903 <;>
            by_cases hpad : attrs.padding_mask <;>
              simp [sdpa_fwd_pass_by_value, find_pbv, hdp, hcau, hp0, hv, hpad]
  · intro attrs st
    constructor
    · intro hpad
      rcases hav : attrs.attn_scale_value with _ | v <;>
        by_cases hal : attrs.alibi_mask <;>
          simp [sdpa_bwd_pass_by_value, find_pbv, hav, hal, hpad]
    · intro hcau
      rcases hav : attrs.attn_scale_value with _ | v <;>
        by_cases hal : attrs.alibi_mask <;>
          by_cases hpad : attrs.padding_mask <;>
            simp [sdpa_bwd_pass_by_value, find_pbv, hav, hal, hpad, hcau]

/-- C6 witness: concrete forward and backward attribute sets with both masks
enabled record the most negative float for both mask-select constants. -/
theorem sdpa_negative_inf_mask_constants_witness :
    (find_pbv PbvKey.negative_inf_padding
       (sdpa_fwd_pass_by_value 8906
         { fwd_example_base with padding_mask := true, causal_mask := true })
       = some (pass_by_values_t.float_scalar float_lowest)) ∧
    (find_pbv PbvKey.negative_inf_causal
       (sdpa_fwd_pass_by_value 8906
         { fwd_example_base with padding_mask := true, causal_mask := true })
       = some (pass_by_values_t.float_scalar float_lowest)) ∧
    (find_pbv PbvKey.negative_inf_padding
       (sdpa_bwd_pass_by_value
         { bwd_example_base with padding_mask := true, causal_mask := true }
         (sdpa_bwd_expand_workspace_state 8906 9 none bwd_example_base))
       = some (pass_by_values_t.float_scalar float_lowest)) ∧
    (find_pbv PbvKey.negative_inf_causal
       (sdpa_bwd_pass_by_value
         { bwd_example_base with padding_mask := true, causal_mask := true }
         (sdpa_bwd_expand_workspace_state 8906 9 none bwd_example_base))
       = some (pass_by_values_t.float_scalar float_lowest)) := by
  refine ⟨?_, ?_, ?_, ?_⟩
  · exact (sdpa_negative_inf_mask_constants.1 8906 _).1 rfl
  · exact (sdpa_negative_inf_mask_constants.1 8906 _).2 rfl
  · exact (sdpa_negative_inf_mask_constants.2 _ _).1 rfl
  · exact (sdpa_negative_inf_mask_constants.2 _ _).2 rfl

/-! ### C1 -/

/-- The tag sequence of the fully featured forward expansion. -/
def fwd_all_features_tags : List OpTag :=
  [ OpTag.matmul "bmm1",
    OpTag.pointwise "attn_scale" PointwiseMode_t.MUL,
    OpTag.pointwise "bias" PointwiseMode_t.ADD,
    OpTag.pointwise "gen_row_index" PointwiseMode_t.GEN_INDEX,
    OpTag.pointwise "gen_col_index" PointwiseMode_t.GEN_INDEX,
    OpTag.pointwise "sub" PointwiseMode_t.SUB,
    OpTag.pointwise "mul" PointwiseMode_t.MUL,
    OpTag.pointwise "add" PointwiseMode_t.ADD,
    OpTag.pointwise "gen_row_index" PointwiseMode_t.GEN_INDEX,
    OpTag.pointwise "gen_col_index" PointwiseMode_t.GEN_INDEX,
    OpTag.pointwise "row_less_seq_q" PointwiseMode_t.CMP_LT,
    OpTag.pointwise "col_less_seq_kv" PointwiseMode_t.CMP_LT,
    OpTag.pointwise "logical_and" PointwiseMode_t.LOGICAL_AND,
    OpTag.pointwise "binary_select" PointwiseMode_t.BINARY_SELECT,
    OpTag.pointwise "gen_row_index" PointwiseMode_t.GEN_INDEX,
    OpTag.pointwise "gen_col_index" PointwiseMode_t.GEN_INDEX,
    OpTag.pointwise "row_greater_than_col" PointwiseMode_t.CMP_GE,
    OpTag.pointwise "binary_select" PointwiseMode_t.BINARY_SELECT,
    OpTag.softmax "softmax",
    OpTag.rng "rng",
    OpTag.pointwise "dropout_mask_mul" PointwiseMode_t.MUL,
    OpTag.pointwise "dropout_scale" PointwiseMode_t.MUL,
    OpTag.matmul "bmm2" ]

/-- C1: with every optional feature enabled (an attention-scale literal, a
bias tensor, the alibi, padding and causal masks, and dropout with a nonzero
probability), forward expansion succeeds and appends the primitive sub-graph
in exactly the fixed order bmm1(Q, K-transposed), attention-scale multiply,
bias add, alibi chain, padding-mask chain, causal-mask chain, softmax,
dropout chain, bmm2 with V; and two expansions from equal attribute records
produce the identical primitive sequence, with identical shapes and strides
on every recorded tensor. -/
theorem sdpa_fwd_masking_order_deterministic
    (cudnn_version cudnn_compiled_version : Nat) (context : Context)
    (attrs : Scaled_dot_product_flash_attention_attributes)
    (sv p : ℚ) (bt : Tensor_attributes) (inf : Bool)
    (hsv : attrs.attn_scale_value = some sv)
    (hbt : attrs.Bias = some bt)
    (hal : attrs.alibi_mask = true)
    (hpad : attrs.padding_mask = true)
    (hcau : attrs.causal_mask = true)
    (hp : attrs.dropout_probability = some p)
    (hp0 : p ≠ 0)
    (hinf : attrs.is_inference = some inf) :
    ((sdpa_fwd_expand cudnn_version cudnn_compiled_version context attrs).map
        (fun r => r.ops.map PrimOp.tag)
      = Except.ok fwd_all_features_tags) ∧
    (∀ attrs2, attrs2 = attrs →
      sdpa_fwd_expand cudnn_version cudnn_compiled_version context attrs2
        = sdpa_fwd_expand cudnn_version cudnn_compiled_version context attrs) := by
  constructor
  · rcases hrd : attrs.RNG_DUMP with _ | rt <;>
      simp [sdpa_fwd_expand, sdpa_fwd_assemble, sdpa_fwd_fill_from_context, fwd_scale_step,
            fwd_bias_step, fwd_alibi_step, fwd_padding_step, fwd_causal_step, fwd_alibi_seg,
            fwd_padding_seg, fwd_causal_seg, fwd_dropout_seg, sdpa_fwd_dropout_present,
            PrimOp.tag, fwd_all_features_tags, Except.map,
            hsv, hbt, hal, hpad, hcau, hp, hp0, hinf, hrd]
  · intro attrs2 h2
    rw [h2]

/-- A bias tensor over the score shape. -/
def t_bias : Tensor_attributes :=
  { dim := [1, 1, 128, 128], stride := [16384, 16384, 128, 1], data_type := DataType_t.HALF }

/-- A per-batch sequence-length tensor. -/
def t_seq : Tensor_attributes :=
  { dim := [2, 1, 1, 1], stride := [1, 1, 1, 1], data_type := DataType_t.INT32 }

/-- A forward attribute set with every optional feature enabled. -/
def fwd_full_example : Scaled_dot_product_flash_attention_attributes :=
  { Q := some t_packed, K := some t_packed, V := some t_packed, O := some t_packed,
    Bias := some t_bias, SEQ_LEN_Q := some t_seq, SEQ_LEN_KV := some t_seq,
    Seed := some t_scalar_i32, Offset := some t_scalar_i32,
    Stats := some t_stats_ok,
    attn_scale_value := some (1/8), dropout_probability := some (1/10),
    is_inference := some false,
    alibi_mask := true, padding_mask := true, causal_mask := true }

/-- C1 witness: the fully featured concrete attribute set expands to exactly
the fixed tag sequence, and re-expanding the same record gives the same
result. -/
theorem sdpa_fwd_masking_order_deterministic_witness :
    ((sdpa_fwd_expand 8906 8906 ctx_example fwd_full_example).map
        (fun r => r.ops.map PrimOp.tag)
      = Except.ok fwd_all_features_tags) ∧
    (sdpa_fwd_expand 8906 8906 ctx_example fwd_full_example
      = sdpa_fwd_expand 8906 8906 ctx_example fwd_full_example) := by
  have h := sdpa_fwd_masking_order_deterministic 8906 8906 ctx_example fwd_full_example
    (1/8) (1/10) t_bias false rfl rfl rfl rfl rfl rfl (by norm_num) rfl
  exact ⟨h.1, h.2 fwd_full_example rfl⟩

/-! ### C7 -/

/-- Composition of Except.map applications, with a pointwise rewriting of the
composed function. -/
theorem except_map_map_eq {ε α β γ : Type} (E : Except ε α) (g : α → β) (f : β → γ)
    (k : α → γ) (h : ∀ a, f (g a) = k a) : (E.map g).map f = E.map k := by
  cases E <;> simp [Except.map, h]

theorem except_map_eq_ok {ε α β : Type} {E : Except ε α} {g : α → β} {r : β}
    (h : E.map g = Except.ok r) : ∃ a, E = Except.ok a ∧ g a = r := by
  cases E with
  | error e => simp [Except.map] at h
  | ok a => exact ⟨a, rfl, by simpa [Except.map] using h⟩

/-- None of the scale, bias, alibi, padding or causal segments contains a
random-mask op. -/
theorem fwd_scale_step_rng (a : Option Tensor_attributes) (last : Tensor_attributes) :
    (fwd_scale_step a last).1.filterMap PrimOp.rng_summary = []
      ∧ (fwd_scale_step a last).1.any PrimOp.is_rng = false := by
  cases a <;> exact ⟨rfl, rfl⟩

theorem fwd_bias_step_rng (a : Option Tensor_attributes) (last : Tensor_attributes) :
    (fwd_bias_step a last).1.filterMap PrimOp.rng_summary = []
      ∧ (fwd_bias_step a last).1.any PrimOp.is_rng = false := by
  cases a <;> exact ⟨rfl, rfl⟩

theorem fwd_alibi_step_rng (f : Bool) (h : Int) (last : Tensor_attributes) :
    (fwd_alibi_step f h last).1.filterMap PrimOp.rng_summary = []
      ∧ (fwd_alibi_step f h last).1.any PrimOp.is_rng = false := by
  cases f <;> exact ⟨rfl, rfl⟩

theorem fwd_padding_step_rng (f : Bool) (sq skv : Option Tensor_attributes)
    (last : Tensor_attributes) :
    (fwd_padding_step f sq skv last).1.filterMap PrimOp.rng_summary = []
      ∧ (fwd_padding_step f sq skv last).1.any PrimOp.is_rng = false := by
  cases f <;> exact ⟨rfl, rfl⟩

theorem fwd_causal_step_rng (f : Bool) (last : Tensor_attributes) :
    (fwd_causal_step f last).1.filterMap PrimOp.rng_summary = []
      ∧ (fwd_causal_step f last).1.any PrimOp.is_rng = false := by
  cases f <;> exact ⟨rfl, rfl⟩

/-- When a dropout probability p is set and the sub-graph is built, the only
random-mask op of the dropout segment is a Bernoulli with success probability
1 - p seeded by the Seed and Offset ports of the attribute record. -/
theorem fwd_dropout_seg_filterMap (cudnn_version cudnn_compiled_version : Nat)
    (attrs : Scaled_dot_product_flash_attention_attributes) (qdt : DataType_t)
    (b h s_q s_kv : Int) (last : Tensor_attributes) (p : ℚ)
    (hp : attrs.dropout_probability = some p)
    (hon : sdpa_fwd_dropout_present cudnn_version attrs = true) :
    (fwd_dropout_seg cudnn_version cudnn_compiled_version attrs qdt b h s_q s_kv last).map
        (fun r => r.1.filterMap PrimOp.rng_summary)
      = Except.ok [(1 - p, attrs.Seed, attrs.Offset)] := by
  rcases hrd : attrs.RNG_DUMP with _ | rt <;>
    simp [fwd_dropout_seg, hon, hp, hrd, PrimOp.rng_summary, Except.map]

/-- The scalar value a pass-by-value map records under a key, if any. -/
def pbv_scalar (k : PbvKey) (l : List (PbvKey × pass_by_values_t)) : Option ℚ :=
  (find_pbv k l).bind pass_by_values_t.scalar_value

/-- Over arbitrary assembly inputs with dropout present via a set probability
p, the random-mask summary of the whole appended op list is exactly the
single Bernoulli(1 - p) generator seeded by the record's Seed and Offset. -/
theorem sdpa_fwd_assemble_filterMap_rng (cudnn_version cudnn_compiled_version : Nat)
    (a2 : Scaled_dot_product_flash_attention_attributes)
    (asi : Option Tensor_attributes) (q : Tensor_attributes) (b h s_q s_kv d_v : Int)
    (inf : Bool) (hinf : a2.is_inference = some inf) (p : ℚ)
    (hp : a2.dropout_probability = some p)
    (hon : sdpa_fwd_dropout_present cudnn_version a2 = true) :
    (sdpa_fwd_assemble cudnn_version cudnn_compiled_version a2 asi q b h s_q s_kv d_v).map
        (fun r => r.ops.filterMap PrimOp.rng_summary)
      = Except.ok [(1 - p, a2.Seed, a2.Offset)] := by
  simp only [sdpa_fwd_assemble, hinf]
  refine Eq.trans
    (except_map_map_eq _ _ _ (fun drop => drop.1.filterMap PrimOp.rng_summary) ?_) ?_
  · intro drop
    simp [List.filterMap_append, List.filterMap_cons, (fwd_scale_step_rng _ _).1,
          (fwd_bias_step_rng _ _).1, (fwd_alibi_step_rng _ _ _).1,
          (fwd_padding_step_rng _ _ _ _).1, (fwd_causal_step_rng _ _).1,
          PrimOp.rng_summary]
  · exact fwd_dropout_seg_filterMap _ _ _ _ _ _ _ _ _ _ hp hon

/-- C7 (amended to 0 < p < 1): for a forward expansion with dropout
probability p strictly between 0 and 1, the single appended random-mask
primitive is a Bernoulli generator with success probability exactly 1 - p
seeded by the caller-supplied Seed and Offset tensors (as updated in place by
the context fill), and the materialize query records a pass-by-value
dropout-scale scalar whose value is exactly 1 / (1 - p). -/
theorem sdpa_fwd_dropout_rng_and_scale
    (cudnn_version cudnn_compiled_version : Nat) (context : Context)
    (attrs : Scaled_dot_product_flash_attention_attributes) (p : ℚ) (inf : Bool)
    (hp : attrs.dropout_probability = some p)
    (h0 : 0 < p) (h1 : p < 1)
    (hinf : attrs.is_inference = some inf) :
    ((sdpa_fwd_expand cudnn_version cudnn_compiled_version context attrs).map
        (fun r => r.ops.filterMap PrimOp.rng_summary)
      = Except.ok [(1 - p,
          (sdpa_fwd_fill_from_context context attrs).Seed,
          (sdpa_fwd_fill_from_context context attrs).Offset)]) ∧
    (pbv_scalar PbvKey.dropout_scale (sdpa_fwd_pass_by_value cudnn_compiled_version attrs)
      = some (1 / (1 - p))) := by
  have hp0 : p ≠ 0 := ne_of_gt h0
  have hon : sdpa_fwd_dropout_present cudnn_version attrs = true := by
    simp [sdpa_fwd_dropout_present, hp, hp0]
  constructor
  · simp only [sdpa_fwd_expand]
    exact sdpa_fwd_assemble_filterMap_rng _ _ _ _ _ _ _ _ _ _ inf
      (by simpa [sdpa_fwd_fill_from_context] using hinf) p
      (by simpa [sdpa_fwd_fill_from_context] using hp)
      (by simp [sdpa_fwd_dropout_present, sdpa_fwd_fill_from_context, hp, hp0])
  · by_cases hv : cudnn_compiled_version < 8903 <;>
      simp [pbv_scalar, sdpa_fwd_pass_by_value, find_pbv, hp, hp0, hv,
            pass_by_values_t.scalar_value]

/-- The C7 counterexample attribute set: dropout probability exactly 0. -/
def fwd_c7_counterexample_attrs : Scaled_dot_product_flash_attention_attributes :=
  { fwd_example_base with
    dropout_probability := some 0,
    Seed := some t_scalar_i32,
    Offset := some t_scalar_i32 }

/-- C7 counterexample: at dropout probability p = 0 (within the claimed range
0 <= p < 1), the materialize query records no dropout-scale scalar at all
(the claim requires 1/(1-0) = 1), and on a backend version above 8902 no
random-mask primitive is appended either. -/
theorem sdpa_fwd_dropout_zero_counterexample :
    fwd_c7_counterexample_attrs.dropout_probability = some 0 ∧
    find_pbv PbvKey.dropout_scale (sdpa_fwd_pass_by_value 8906 fwd_c7_counterexample_attrs)
      = none ∧
    (sdpa_fwd_expand 8906 8906 ctx_example fwd_c7_counterexample_attrs).map
        (fun r => r.ops.filterMap PrimOp.rng_summary) = Except.ok [] := by
  refine ⟨rfl, rfl, ?_⟩
  rfl

/-- C7 witness: the fully featured example with p = 1/10 yields exactly one
Bernoulli(9/10) random-mask primitive seeded by its Seed / Offset tensors and
a recorded dropout-scale of 10/9. -/
theorem sdpa_fwd_dropout_rng_and_scale_witness :
    ((sdpa_fwd_expand 8906 8906 ctx_example fwd_full_example).map
        (fun r => r.ops.filterMap PrimOp.rng_summary)
      = Except.ok [(1 - 1/10,
          (sdpa_fwd_fill_from_context ctx_example fwd_full_example).Seed,
          (sdpa_fwd_fill_from_context ctx_example fwd_full_example).Offset)]) ∧
    (pbv_scalar PbvKey.dropout_scale (sdpa_fwd_pass_by_value 8906 fwd_full_example)
      = some (1 / (1 - 1/10))) :=
  sdpa_fwd_dropout_rng_and_scale 8906 8906 ctx_example fwd_full_example (1/10) false
    rfl (by norm_num) (by norm_num) rfl

/-! ### C8 -/

/-- The dropout segment when dropout is present only through a bound user
Dropout_mask: the unset probability is read (optional::value()), aborting. -/
theorem fwd_dropout_seg_mask_only_error (cudnn_version cudnn_compiled_version : Nat)
    (attrs : Scaled_dot_product_flash_attention_attributes) (qdt : DataType_t)
    (b h s_q s_kv : Int) (last : Tensor_attributes)
    (hp : attrs.dropout_probability = none) (hm : attrs.Dropout_mask.isSome = true) :
    fwd_dropout_seg cudnn_version cudnn_compiled_version attrs qdt b h s_q s_kv last
      = Except.error "bad_optional_access: dropout_probability.value() read with no value set" := by
  have hon : sdpa_fwd_dropout_present cudnn_version attrs = true := by
    simp [sdpa_fwd_dropout_present, hp, hm]
  simp [fwd_dropout_seg, hon, hp]

/-- The dropout segment appends a random-mask op exactly when dropout is
present, provided it does not abort (no mask-only dropout). -/
theorem fwd_dropout_seg_any (cudnn_version cudnn_compiled_version : Nat)
    (attrs : Scaled_dot_product_flash_attention_attributes) (qdt : DataType_t)
    (b h s_q s_kv : Int) (last : Tensor_attributes)
    (hnm : attrs.dropout_probability.isSome = true ∨ attrs.Dropout_mask = none) :
    (fwd_dropout_seg cudnn_version cudnn_compiled_version attrs qdt b h s_q s_kv last).map
        (fun r => r.1.any PrimOp.is_rng)
      = Except.ok (sdpa_fwd_dropout_present cudnn_version attrs) := by
  by_cases hon : sdpa_fwd_dropout_present cudnn_version attrs = true
  · rcases hp : attrs.dropout_probability with _ | p
    · exfalso
      rcases hnm with h | h
      · simp [hp] at h
      · simp [sdpa_fwd_dropout_present, hp, h] at hon
    · rcases hrd : attrs.RNG_DUMP with _ | rt <;>
        simp [fwd_dropout_seg, hon, hp, hrd, PrimOp.is_rng, Except.map]
  · have hon2 : sdpa_fwd_dropout_present cudnn_version attrs = false := by
      simpa using hon
    simp [fwd_dropout_seg, hon2, Except.map]

/-- Over arbitrary assembly inputs, the assembled op list contains a
random-mask op exactly when dropout is present (no mask-only dropout). -/
theorem sdpa_fwd_assemble_any_rng (cudnn_version cudnn_compiled_version : Nat)
    (a2 : Scaled_dot_product_flash_attention_attributes)
    (asi : Option Tensor_attributes) (q : Tensor_attributes) (b h s_q s_kv d_v : Int)
    (inf : Bool) (hinf : a2.is_inference = some inf)
    (hnm : a2.dropout_probability.isSome = true ∨ a2.Dropout_mask = none) :
    (sdpa_fwd_assemble cudnn_version cudnn_compiled_version a2 asi q b h s_q s_kv d_v).map
        (fun r => r.ops.any PrimOp.is_rng)
      = Except.ok (sdpa_fwd_dropout_present cudnn_version a2) := by
  simp only [sdpa_fwd_assemble, hinf]
  refine Eq.trans (except_map_map_eq _ _ _ (fun drop => drop.1.any PrimOp.is_rng) ?_) ?_
  · intro drop
    simp [List.any_append, (fwd_scale_step_rng _ _).2, (fwd_bias_step_rng _ _).2,
          (fwd_alibi_step_rng _ _ _).2, (fwd_padding_step_rng _ _ _ _).2,
          (fwd_causal_step_rng _ _).2, PrimOp.is_rng]
  · exact fwd_dropout_seg_any _ _ _ _ _ _ _ _ _ hnm

/-- Over arbitrary assembly inputs, mask-only dropout aborts the assembly. -/
theorem sdpa_fwd_assemble_mask_only_error (cudnn_version cudnn_compiled_version : Nat)
    (a2 : Scaled_dot_product_flash_attention_attributes)
    (asi : Option Tensor_attributes) (q : Tensor_attributes) (b h s_q s_kv d_v : Int)
    (inf : Bool) (hinf : a2.is_inference = some inf)
    (hp : a2.dropout_probability = none) (hm : a2.Dropout_mask.isSome = true) :
    sdpa_fwd_assemble cudnn_version cudnn_compiled_version a2 asi q b h s_q s_kv d_v
      = Except.error "bad_optional_access: dropout_probability.value() read with no value set" := by
  simp only [sdpa_fwd_assemble, hinf]
  rw [fwd_dropout_seg_mask_only_error _ _ _ _ _ _ _ _ _ hp hm]
  rfl

/-- Filling from context changes no field the dropout-present decision reads. -/
theorem sdpa_fwd_dropout_present_fill (cudnn_version : Nat) (context : Context)
    (attrs : Scaled_dot_product_flash_attention_attributes) :
    sdpa_fwd_dropout_present cudnn_version (sdpa_fwd_fill_from_context context attrs)
      = sdpa_fwd_dropout_present cudnn_version attrs := by
  rcases hp : attrs.dropout_probability with _ | p <;>
    rcases hm : attrs.Dropout_mask with _ | mt <;>
      simp [sdpa_fwd_dropout_present, sdpa_fwd_fill_from_context, hp, hm]

/-- C8 (amended): the dropout sub-graph (random mask, multiply, scale
multiply) is appended exactly when the code's dropout-present decision holds:
with a probability p set, always except that p = 0 is elided on runtime
versions above 8902; with no probability set the decision follows the bound
Dropout_mask, but in that mask-only case expansion never appends the
sub-graph — it aborts reading the unset probability (optional access). -/
theorem sdpa_fwd_dropout_subgraph_condition
    (cudnn_version cudnn_compiled_version : Nat) (context : Context)
    (attrs : Scaled_dot_product_flash_attention_attributes) (inf : Bool)
    (hinf : attrs.is_inference = some inf) :
    (∀ p : ℚ, attrs.dropout_probability = some p →
        (sdpa_fwd_dropout_present cudnn_version attrs = true
          ↔ ¬ (cudnn_version > 8902 ∧ p = 0))) ∧
    (attrs.dropout_probability = none →
        sdpa_fwd_dropout_present cudnn_version attrs = attrs.Dropout_mask.isSome) ∧
    (attrs.dropout_probability.isSome = true ∨ attrs.Dropout_mask = none →
        (sdpa_fwd_expand cudnn_version cudnn_compiled_version context attrs).map
            (fun r => r.ops.any PrimOp.is_rng)
          = Except.ok (sdpa_fwd_dropout_present cudnn_version attrs)) ∧
    (attrs.dropout_probability = none → attrs.Dropout_mask.isSome = true →
        sdpa_fwd_expand cudnn_version cudnn_compiled_version context attrs
          = Except.error "bad_optional_access: dropout_probability.value() read with no value set") := by
  refine ⟨?_, ?_, ?_, ?_⟩
  · intro p hp
    by_cases hv : cudnn_version > 8902 <;> by_cases hp0 : p = 0 <;>
      simp [sdpa_fwd_dropout_present, hp, hv, hp0]
  · intro hp
    simp [sdpa_fwd_dropout_present, hp]
  · intro hnm
    simp only [sdpa_fwd_expand]
    refine Eq.trans (sdpa_fwd_assemble_any_rng _ _ _ _ _ _ _ _ _ _ inf
      (by simpa [sdpa_fwd_fill_from_context] using hinf) ?_) ?_
    · rcases hnm with h | h
      · exact Or.inl (by simpa [sdpa_fwd_fill_from_context] using h)
      · exact Or.inr (by simp [sdpa_fwd_fill_from_context, h])
    · refine congrArg Except.ok ?_
      rcases hp : attrs.dropout_probability with _ | p <;>
        rcases hm : attrs.Dropout_mask with _ | mt <;>
          simp [sdpa_fwd_dropout_present, sdpa_fwd_fill_from_context, hp, hm]
  · intro hp hm
    simp only [sdpa_fwd_expand]
    exact sdpa_fwd_assemble_mask_only_error _ _ _ _ _ _ _ _ _ _ inf
      (by simpa [sdpa_fwd_fill_from_context] using hinf)
      (by simpa [sdpa_fwd_fill_from_context] using hp)
      (by simpa [sdpa_fwd_fill_from_context] using hm)

/-- The C8 counterexample attribute set: a user Dropout_mask bound with no
dropout probability. -/
def fwd_c8_counterexample_attrs : Scaled_dot_product_flash_attention_attributes :=
  { fwd_example_base with Dropout_mask := some t_packed }

/-- C8 counterexample (for the record; the claim is settled as corrected):
with only a user Dropout_mask bound, forward expansion aborts with an
optional-access error instead of appending the dropout sub-graph. -/
theorem sdpa_fwd_dropout_mask_only_counterexample :
    fwd_c8_counterexample_attrs.dropout_probability = none ∧
    fwd_c8_counterexample_attrs.Dropout_mask.isSome = true ∧
    sdpa_fwd_expand 8906 8906 ctx_example fwd_c8_counterexample_attrs
      = Except.error "bad_optional_access: dropout_probability.value() read with no value set" := by
  exact ⟨rfl, rfl, rfl⟩

/-- C8 witness: concrete instances of the amended statement — dropout present
at p = 1/10 on version 8906, a random-mask op actually appended; p = 0 elided
on version 8906 but present on version 8902; and the mask-only abort. -/
theorem sdpa_fwd_dropout_subgraph_condition_witness :
    (sdpa_fwd_dropout_present 8906 fwd_full_example = true ↔ ¬ (8906 > 8902 ∧ (1/10 : ℚ) = 0)) ∧
    ((sdpa_fwd_expand 8906 8906 ctx_example fwd_full_example).map
        (fun r => r.ops.any PrimOp.is_rng)
      = Except.ok (sdpa_fwd_dropout_present 8906 fwd_full_example)) ∧
    (sdpa_fwd_expand 8906 8906 ctx_example fwd_c8_counterexample_attrs
      = Except.error "bad_optional_access: dropout_probability.value() read with no value set") := by
  refine ⟨?_, ?_, ?_⟩
  · exact (sdpa_fwd_dropout_subgraph_condition 8906 8906 ctx_example fwd_full_example false
      rfl).1 (1/10) rfl
  · exact (sdpa_fwd_dropout_subgraph_condition 8906 8906 ctx_example fwd_full_example false
      rfl).2.2.1 (Or.inl rfl)
  · exact (sdpa_fwd_dropout_subgraph_condition 8906 8906 ctx_example fwd_c8_counterexample_attrs
      true rfl).2.2.2 rfl rfl

/-! ### C9 -/

/-- Filling an already-set data type is the identity. -/
theorem tensor_fill_data_type_noop (dt : DataType_t) (t : Tensor_attributes)
    (h : t.data_type ≠ DataType_t.NOT_SET) : tensor_fill_data_type dt t = t := by
  simp [tensor_fill_data_type, h]

/-- Context filling of the data type is idempotent. -/
theorem tensor_fill_data_type_idem (dt : DataType_t) (t : Tensor_attributes) :
    tensor_fill_data_type dt (tensor_fill_data_type dt t) = tensor_fill_data_type dt t := by
  unfold tensor_fill_data_type
  by_cases h : t.data_type = DataType_t.NOT_SET <;>
    by_cases h2 : dt = DataType_t.NOT_SET <;>
      simp_all

theorem option_fill_idem (dt : DataType_t) (o : Option Tensor_attributes) :
    (o.map (tensor_fill_data_type dt)).map (tensor_fill_data_type dt)
      = o.map (tensor_fill_data_type dt) := by
  cases o <;> simp [tensor_fill_data_type_idem]

theorem option_fill_comp (dt : DataType_t) (o : Option Tensor_attributes) :
    o.map (tensor_fill_data_type dt ∘ tensor_fill_data_type dt)
      = o.map (tensor_fill_data_type dt) := by
  cases o <;> simp [tensor_fill_data_type_idem]

/-- The generated NHWC stride vector is empty exactly for an empty shape. -/
theorem generate_NHWC_stride_eq_nil (d : List Int) :
    generate_NHWC_stride d = [] ↔ d = [] := by
  cases d with
  | nil => simp [generate_NHWC_stride]
  | cons a rest => cases rest <;> simp [generate_NHWC_stride]

/-- Context filling does not change dims or strides. -/
theorem tensor_fill_data_type_dim (dt : DataType_t) (t : Tensor_attributes) :
    (tensor_fill_data_type dt t).dim = t.dim ∧
    (tensor_fill_data_type dt t).stride = t.stride := by
  unfold tensor_fill_data_type
  split <;> exact ⟨rfl, rfl⟩

/-- The per-tensor DLN inference step is idempotent. -/
theorem dln_infer_tensor_idem (io : DataType_t) (d : List Int) (t : Tensor_attributes) :
    dln_infer_tensor io d (dln_infer_tensor io d t) = dln_infer_tensor io d t := by
  unfold dln_infer_tensor infer_NHWC_stride_if_empty infer_dim_if_empty tensor_fill_data_type
  by_cases h1 : t.data_type = DataType_t.NOT_SET <;>
    by_cases h2 : io = DataType_t.NOT_SET <;>
      by_cases h3 : t.dim = [] <;>
        by_cases h4 : d = [] <;>
          by_cases h5 : t.stride = [] <;>
            simp_all [generate_NHWC_stride_eq_nil]

/-- The per-tensor DLN inference step leaves a fully specified descriptor
unchanged. -/
theorem dln_infer_tensor_noop (io : DataType_t) (d : List Int) (t : Tensor_attributes)
    (hdim : t.dim ≠ []) (hstride : t.stride ≠ []) (hdt : t.data_type ≠ DataType_t.NOT_SET) :
    dln_infer_tensor io d t = t := by
  simp [dln_infer_tensor, infer_NHWC_stride_if_empty, infer_dim_if_empty,
        tensor_fill_data_type, hdim, hstride, hdt]

/-- Over arbitrary assembly inputs, a fully specified output descriptor O is
recorded back unchanged by expansion. -/
theorem sdpa_fwd_assemble_O (cudnn_version cudnn_compiled_version : Nat)
    (a2 : Scaled_dot_product_flash_attention_attributes)
    (asi : Option Tensor_attributes) (q : Tensor_attributes) (b h s_q s_kv d_v : Int)
    (o : Tensor_attributes) (hO : a2.O = some o)
    (hdim : o.dim ≠ []) (hstride : o.stride ≠ []) :
    ∀ r, sdpa_fwd_assemble cudnn_version cudnn_compiled_version a2 asi q b h s_q s_kv d_v
           = Except.ok r →
      r.attrs.O = some o := by
  intro r hr
  rcases hi : a2.is_inference with _ | inf
  · simp [sdpa_fwd_assemble, hi] at hr
  · simp only [sdpa_fwd_assemble, hi] at hr
    obtain ⟨drop, hseg, hg⟩ := except_map_eq_ok hr
    rw [← hg]
    simp [hO, hdim, hstride]

/-- C9 (amended): inference fills only empty fields on the tensors it infers:
the normalization-backward expansion is idempotent (running it twice equals
running it once) and leaves any fully specified DY, DX, DSCALE or DBIAS
unchanged, and the attention-forward expansion leaves a fully specified
output O unchanged. (The attention nodes' K — and backward K and V — inputs
are the exception the counterexample exhibits: expansion transposes them in
place even when fully specified.) -/
theorem inference_fills_only_empty :
    (∀ (cudnn_version : Nat) (context : Context) (a : Layernorm_backward_attributes),
        dln_expand_and_infer cudnn_version context
            ((dln_expand_and_infer cudnn_version context a).attrs)
          = dln_expand_and_infer cudnn_version context a) ∧
    (∀ (cudnn_version : Nat) (context : Context) (a : Layernorm_backward_attributes)
        (t : Tensor_attributes),
        t.dim ≠ [] → t.stride ≠ [] → t.data_type ≠ DataType_t.NOT_SET →
        (a.DY = some t →
          (dln_expand_and_infer cudnn_version context a).attrs.DY = some t) ∧
        (a.DX = some t →
          (dln_expand_and_infer cudnn_version context a).attrs.DX = some t) ∧
        (a.DSCALE = some t →
          (dln_expand_and_infer cudnn_version context a).attrs.DSCALE = some t) ∧
        (a.DBIAS = some t →
          (dln_expand_and_infer cudnn_version context a).attrs.DBIAS = some t)) ∧
    (∀ (cudnn_version cudnn_compiled_version : Nat) (context : Context)
        (a : Scaled_dot_product_flash_attention_attributes) (o : Tensor_attributes),
        a.O = some o → o.dim ≠ [] → o.stride ≠ [] → o.data_type ≠ DataType_t.NOT_SET →
        ∀ r, sdpa_fwd_expand cudnn_version cudnn_compiled_version context a = Except.ok r →
          r.attrs.O = some o) := by
  refine ⟨?_, ?_, ?_⟩
  · intro cudnn_version context a
    simp only [dln_expand_and_infer, dln_fill_from_context]
    simp [option_fill_idem, option_fill_comp, dln_infer_tensor_idem]
  · intro cudnn_version context a t hdim hstride hdt
    refine ⟨?_, ?_, ?_, ?_⟩ <;> intro h <;>
      simp [dln_expand_and_infer, h, dln_infer_tensor_noop _ _ _ hdim hstride hdt]
  · intro cudnn_version cudnn_compiled_version context a o hO hdim hstride hdt r hr
    simp only [sdpa_fwd_expand] at hr
    exact sdpa_fwd_assemble_O _ _ _ _ _ _ _ _ _ _ o
      (by simp [sdpa_fwd_fill_from_context, hO, tensor_fill_data_type_noop _ _ hdt])
      hdim hstride r hr

/-- C9 counterexample: the fully specified K input of the forward node (shape
[2,4,128,64], packed strides, HALF) comes out of expansion with its dims and
strides 2 and 3 swapped — expansion transposes the bound K in place, so it
does not leave every fully specified tensor unchanged. -/
theorem sdpa_fwd_expand_K_transpose_counterexample :
    fwd_example_base.K = some t_packed ∧
    t_packed.dim ≠ [] ∧ t_packed.stride ≠ [] ∧ t_packed.data_type ≠ DataType_t.NOT_SET ∧
    (sdpa_fwd_expand 8906 8906 ctx_example fwd_example_base).map (fun r => r.attrs.K)
      = Except.ok (some { dim := [2, 4, 64, 128], stride := [32768, 8192, 1, 64],
                          data_type := DataType_t.HALF }) ∧
    some ({ dim := [2, 4, 64, 128], stride := [32768, 8192, 1, 64],
            data_type := DataType_t.HALF } : Tensor_attributes) ≠ fwd_example_base.K := by
  exact ⟨rfl, by decide, by decide, by decide, rfl, by decide⟩

/-- A fully specified layer-norm backward attribute set. -/
def dln_example : Layernorm_backward_attributes :=
  { X := some t_packed, DY := some t_packed, SCALE := some t_stats_ok,
    MEAN := some t_stats_ok, INV_VARIANCE := some t_stats_ok,
    DX := some t_packed, DSCALE := some t_stats_ok, DBIAS := some t_stats_ok }

/-- C9 witness: on concrete fully specified attribute sets, the DLN expansion
is idempotent and preserves DY, and forward expansion preserves O. -/
theorem inference_fills_only_empty_witness :
    (dln_expand_and_infer 8905 ctx_example
        ((dln_expand_and_infer 8905 ctx_example dln_example).attrs)
      = dln_expand_and_infer 8905 ctx_example dln_example) ∧
    ((dln_expand_and_infer 8905 ctx_example dln_example).attrs.DY = some t_packed) ∧
    ((sdpa_fwd_expand 8906 8906 ctx_example fwd_example_base).map (fun r => r.attrs.O)
      = Except.ok (some t_packed)) := by
  refine ⟨inference_fills_only_empty.1 8905 ctx_example dln_example,
          (inference_fills_only_empty.2.1 8905 ctx_example dln_example t_packed
            (by decide) (by decide) (by decide)).1 rfl, ?_⟩
  obtain ⟨r, hr⟩ : ∃ r, sdpa_fwd_expand 8906 8906 ctx_example fwd_example_base
      = Except.ok r := ⟨_, rfl⟩
  have hO := inference_fills_only_empty.2.2 8906 8906 ctx_example fwd_example_base t_packed
    rfl (by decide) (by decide) (by decide) r hr
  rw [hr]
  simp [Except.map, hO]
